import Mathlib

/-!
Verification of the render pipeline coordinator of the repository
(packages/cli/src/render.tsx) against its natural-language specification.

The single exported entry point of the source, the async function render,
is shallowly embedded as a pure function from an environment record
(capturing the process-wide configuration accessors, the filesystem
preconditions and the outcomes of the external collaborators) to a
terminal result together with an ordered trace of the observable effects
the run performed (collaborator invocations, directory creation and
removal, warnings, the debug performance dump).  An awaited collaborator
call is modelled as one atomic trace event: the await in the source means
the call has fully completed before the next statement runs, so event
order in the trace is exactly the completion order of the stages.
-/

namespace Remotion

/-- The codec enumeration of the source (remotion config): h264, h265, vp8, vp9. -/
inductive Codec
  | h264
  | h265
  | vp8
  | vp9
  deriving DecidableEq

/-- A resolved composition record as consumed by render.tsx: its id, the
dimensions, fps and durationInFrames fields that the coordinator reads. -/
structure Composition where
  id : String
  width : Nat
  height : Nat
  fps : Nat
  durationInFrames : Nat
  deriving DecidableEq

/-- The value of the crf binding in render.tsx line 91.  In the source it is
a JavaScript value: null in image-sequence mode, and otherwise whatever
Internals.getActualCrf returned, which the stitching stage later checks
with a typeof test.  num n is a numeric value, jsNull is the literal null
assigned in image-sequence mode, notNum is any non-number non-null value
(for example undefined) coming back from the accessor. -/
inductive CrfVal
  | num (n : Int)
  | jsNull
  | notNum
  deriving DecidableEq

/-- The null test of render.tsx line 92 (crf !== null). -/
def CrfVal.isJsNull : CrfVal → Bool
  | CrfVal.jsNull => true
  | _ => false

/-- Structured error taxonomy for the throwing exits of the run: each
constructor corresponds to one throw site of render.tsx or of a collaborator
it awaits. -/
inductive RunError
  | ffmpegMissing
  | invalidCrfForCodec
  | invalidPixelFormatCodec
  | invalidPixelFormatImageFormat
  | bundleFailed
  | getCompositionsFailed
  | compositionNotFound (id : String)
  | renderFramesFailed
  | crfNotANumber
  | stitchFailed
  deriving DecidableEq

/-- Terminal outcome of one invocation of render: process.exit with a code,
an uncaught throw, or normal completion. -/
inductive RunResult
  | exited (code : Nat)
  | threw (e : RunError)
  | done
  deriving DecidableEq

/-- Observable effects of a run, in program order.  warnCodecFeature is one
of the console advisories of lines 51-74; checkOverwrite is the
fs.existsSync probe of line 82; callValidateFfmpeg, callBundle,
callGetCompositions, callRenderFrames and callStitch are the awaited
external calls; callGetActualCrf and callValidateCrf are the Internals
accessor and validator invocations of lines 91-94; mkdirOutputDir is the
fs.mkdirSync of line 106, mkdtempFrameDir the fs.promises.mkdtemp of line
139; logPerf is the debug performance dump of line 170; rmdirFrameDir and
rmdirBundleDir are the two recursive removals of lines 204-211. -/
inductive Event
  | warnCodecFeature (feature : String)
  | checkOverwrite
  | callValidateFfmpeg
  | callGetActualCrf
  | callValidateCrf
  | mkdirOutputDir
  | callBundle
  | callGetCompositions
  | mkdtempFrameDir
  | callRenderFrames (frames : Nat)
  | logPerf
  | callStitch (crf : Int) (frames : Nat)
  | rmdirFrameDir
  | rmdirBundleDir
  deriving DecidableEq

/-- The environment of one render run: the values the source reads through
its process-wide configuration accessors, the filesystem preconditions,
and the outcomes of the awaited external collaborators (true = the awaited
promise resolves, false = it rejects).  resolvedCodec stands for the value
returned by getFinalOutputCodec, whose implementation is outside the two
source files; the coordinator only consumes its result.  actualCrf stands
for the value returned by Internals.getActualCrf: some n when it is the
number n, none when it is a non-number value (the case the stitching stage
guards against with its typeof check). -/
structure RenderEnv where
  shouldOutputImageSequence : Bool
  userCodec : Option Codec
  resolvedCodec : Codec
  ffmpegFeatures : List String
  outputFileExists : Bool
  overwrite : Bool
  validateFfmpegOk : Bool
  actualCrf : Option Int
  pixelFormatCodecOk : Bool
  pixelFormatImageFormatOk : Bool
  bundleOk : Bool
  getCompositionsOk : Bool
  comps : List Composition
  compositionId : String
  renderFramesOk : Bool
  debugEnv : Bool
  stitchOk : Bool
  deriving DecidableEq

/-- Modelled from the spec: the implementation of ffmpegHasFeature lives in
the renderer package, outside the two source files; per spec section 4.2
item 1 and section 9 it is a string-based probe of the optional feature
flags the host encoder build was compiled with.  The environment carries
the feature-flag list of the host build and the probe is membership. -/
def ffmpegHasFeature (features : List String) (flag : String) : Bool :=
  features.contains flag

/-- Modelled from the spec: the CRF range per codec documented in the
configuration documentation (source docs, setCrf section) and spec section
4.2 item 4: h264 0-51, h265 0-51, vp8 4-63, vp9 0-63. -/
def crfRange : Codec → Int × Int
  | Codec.h264 => (0, 51)
  | Codec.h265 => (0, 51)
  | Codec.vp8 => (4, 63)
  | Codec.vp9 => (0, 63)

/-- Modelled from the spec: the implementation of
Internals.validateSelectedCrfAndCodecCombination is outside the two source
files (render.tsx line 93 only calls it).  Per spec section 4.2 item 4 it
accepts exactly the documented numeric range of the selected codec and an
out-of-range value is fatal.  true = accepted, false = fatal rejection. -/
def validateSelectedCrfAndCodecCombination (crf : Int) (codec : Codec) : Bool :=
  decide ((crfRange codec).1 ≤ crf) && decide (crf ≤ (crfRange codec).2)

/-- Lifting of the CRF validator to the JavaScript value passed at line 93.
The spec defines the validator only on numeric values; spec section 9
records that a non-number CRF survives to the stitching stage where the
typeof check rejects it, so a non-number value passes through here. -/
def validateCrfVal : CrfVal → Codec → Bool
  | CrfVal.num n, codec => validateSelectedCrfAndCodecCombination n codec
  | _, _ => true

/-- The advisory console warnings of render.tsx lines 51-74: vp8 without
enable-libvpx, h265 without enable-gpl, h265 without enable-libx265.  Each
emits a warning event and nothing else; none of them aborts the run. -/
def codecWarnings (codec : Codec) (features : List String) : List Event :=
  (if codec = Codec.vp8 && !ffmpegHasFeature features "enable-libvpx" then
    [Event.warnCodecFeature "enable-libvpx"] else [])
  ++ (if codec = Codec.h265 && !ffmpegHasFeature features "enable-gpl" then
    [Event.warnCodecFeature "enable-gpl"] else [])
  ++ (if codec = Codec.h265 && !ffmpegHasFeature features "enable-libx265" then
    [Event.warnCodecFeature "enable-libx265"] else [])

/-- The crf binding of render.tsx line 91: null when outputting an image
sequence, otherwise the value returned by Internals.getActualCrf. -/
def crfOf (env : RenderEnv) : CrfVal :=
  if env.shouldOutputImageSequence then CrfVal.jsNull
  else match env.actualCrf with
    | some n => CrfVal.num n
    | none => CrfVal.notNum

/-- Trace of the validation phase of render.tsx lines 82-104: the existsSync
probe, then (video mode only) the validateFfmpeg availability check and the
Internals.getActualCrf accessor, then (whenever the crf binding is not null,
that is in video mode) the CRF validator invocation. -/
def validationTrace (env : RenderEnv) : List Event :=
  Event.checkOverwrite ::
    (if env.shouldOutputImageSequence then []
     else [Event.callValidateFfmpeg, Event.callGetActualCrf]) ++
    (if (crfOf env).isJsNull then [] else [Event.callValidateCrf])

/-- Trace up to and including the packaging call of line 123: in
image-sequence mode the output directory is created (line 106) just before
bundling starts. -/
def bundleTrace (env : RenderEnv) : List Event :=
  validationTrace env ++
    (if env.shouldOutputImageSequence then [Event.mkdirOutputDir] else []) ++
    [Event.callBundle]

/-- Trace up to and including the getCompositions call of line 126. -/
def compsTrace (env : RenderEnv) : List Event :=
  bundleTrace env ++ [Event.callGetCompositions]

/-- Trace up to and including the renderFrames call of line 149: in video
mode the temporary frame directory is created (line 139) first. -/
def framesTrace (env : RenderEnv) (frames : Nat) : List Event :=
  compsTrace env ++
    (if env.shouldOutputImageSequence then [] else [Event.mkdtempFrameDir]) ++
    [Event.callRenderFrames frames]

/-- Trace after frame rendering completed, including the debug performance
dump of lines 169-171 when the debug environment flag is set. -/
def postFramesTrace (env : RenderEnv) (frames : Nat) : List Event :=
  framesTrace env frames ++ (if env.debugEnv then [Event.logPerf] else [])

/-- Trace up to and including the encoder call of line 186. -/
def stitchTrace (env : RenderEnv) (crf : Int) (frames : Nat) : List Event :=
  postFramesTrace env frames ++ [Event.callStitch crf frames]

/-- The body of render.tsx from line 76 (after the codec-feature warning
block) to the end, as a straight-line translation: each early exit of the
source (process.exit, an uncaught throw of its own or of an awaited
collaborator) returns the terminal result together with the trace of the
events performed up to and including that point. -/
def renderCore (env : RenderEnv) : RunResult × List Event :=
  if env.outputFileExists && !env.overwrite then
    (RunResult.exited 1, [Event.checkOverwrite])
  else if !env.shouldOutputImageSequence && !env.validateFfmpegOk then
    (RunResult.threw RunError.ffmpegMissing,
      [Event.checkOverwrite, Event.callValidateFfmpeg])
  else if !(crfOf env).isJsNull && !validateCrfVal (crfOf env) env.resolvedCodec then
    (RunResult.threw RunError.invalidCrfForCodec, validationTrace env)
  else if !env.pixelFormatCodecOk then
    (RunResult.threw RunError.invalidPixelFormatCodec, validationTrace env)
  else if !env.pixelFormatImageFormatOk then
    (RunResult.threw RunError.invalidPixelFormatImageFormat, validationTrace env)
  else if !env.bundleOk then
    (RunResult.threw RunError.bundleFailed, bundleTrace env)
  else if !env.getCompositionsOk then
    (RunResult.threw RunError.getCompositionsFailed, compsTrace env)
  else
    match env.comps.find? (fun c => c.id == env.compositionId) with
    | none =>
      (RunResult.threw (RunError.compositionNotFound env.compositionId), compsTrace env)
    | some config =>
      if !env.renderFramesOk then
        (RunResult.threw RunError.renderFramesFailed,
          framesTrace env config.durationInFrames)
      else if env.shouldOutputImageSequence then
        (RunResult.done, postFramesTrace env config.durationInFrames)
      else
        match crfOf env with
        | CrfVal.num n =>
          if !env.stitchOk then
            (RunResult.threw RunError.stitchFailed,
              stitchTrace env n config.durationInFrames)
          else
            (RunResult.done,
              stitchTrace env n config.durationInFrames ++
                [Event.rmdirFrameDir, Event.rmdirBundleDir])
        | _ =>
          (RunResult.threw RunError.crfNotANumber,
            postFramesTrace env config.durationInFrames)

/-- The exported render function of render.tsx: the codec/image-sequence
conflict check of lines 36-45 exits the process with code 1 before anything
else happens; otherwise the advisory codec-feature warnings of lines 51-74
are emitted and the rest of the pipeline (renderCore) runs. -/
def render (env : RenderEnv) : RunResult × List Event :=
  if env.shouldOutputImageSequence && env.userCodec.isSome then
    (RunResult.exited 1, [])
  else
    ((renderCore env).1,
      codecWarnings env.resolvedCodec env.ffmpegFeatures ++ (renderCore env).2)

/-- Event classifier: the advisory warnings. -/
def Event.isWarn : Event → Bool
  | Event.warnCodecFeature _ => true
  | _ => false

/-- Event classifier: invocations of one of the four external collaborators
of the spec (packaging, composition resolution, frame rendering, encoding). -/
def Event.isCollaborator : Event → Bool
  | Event.callBundle => true
  | Event.callGetCompositions => true
  | Event.callRenderFrames _ => true
  | Event.callStitch _ _ => true
  | _ => false

/-- Event classifier: the encoder invocation. -/
def Event.isStitch : Event → Bool
  | Event.callStitch _ _ => true
  | _ => false

/-- Event classifier: the frame-rendering invocation. -/
def Event.isRenderFrames : Event → Bool
  | Event.callRenderFrames _ => true
  | _ => false

/-- Event classifier: directory creation (the image-sequence output
directory or the temporary frame directory). -/
def Event.isDirCreation : Event → Bool
  | Event.mkdirOutputDir => true
  | Event.mkdtempFrameDir => true
  | _ => false

/-- Event classifier: the debug performance dump. -/
def Event.isLogPerf : Event → Bool
  | Event.logPerf => true
  | _ => false

/-- Event classifier: the existsSync overwrite-precondition probe. -/
def Event.isCheckOverwrite : Event → Bool
  | Event.checkOverwrite => true
  | _ => false

/-- Event classifier: the validateFfmpeg availability check. -/
def Event.isValidateFfmpeg : Event → Bool
  | Event.callValidateFfmpeg => true
  | _ => false

/-- Event classifier: the Internals.getActualCrf accessor call. -/
def Event.isGetActualCrf : Event → Bool
  | Event.callGetActualCrf => true
  | _ => false

/-- Event classifier: the getCompositions collaborator call. -/
def Event.isGetCompositions : Event → Bool
  | Event.callGetCompositions => true
  | _ => false

/-- Event classifier: creation of the temporary frame directory. -/
def Event.isMkdtemp : Event → Bool
  | Event.mkdtempFrameDir => true
  | _ => false

/-- Trace-order predicate: every element satisfying q is strictly preceded
by some element satisfying p.  Walking the list, meeting a q-element before
any p-element refutes the property; once a p-element is seen every later
q-element is preceded by it. -/
def precededBy (p q : Event → Bool) : List Event → Bool
  | [] => true
  | x :: xs => if q x then false else if p x then true else precededBy p q xs

/-- Concrete composition used by the witnesses. -/
def baseComp : Composition :=
  { id := "main", width := 1920, height := 1080, fps := 30, durationInFrames := 30 }

/-- Concrete fully-healthy video-mode environment used by the witnesses. -/
def baseEnv : RenderEnv :=
  { shouldOutputImageSequence := false
    userCodec := none
    resolvedCodec := Codec.h264
    ffmpegFeatures := ["enable-libvpx", "enable-gpl", "enable-libx265"]
    outputFileExists := false
    overwrite := false
    validateFfmpegOk := true
    actualCrf := some 18
    pixelFormatCodecOk := true
    pixelFormatImageFormatOk := true
    bundleOk := true
    getCompositionsOk := true
    comps := [baseComp]
    compositionId := "main"
    renderFramesOk := true
    debugEnv := false
    stitchOk := true }

/-- Concrete environment with the codec/image-sequence conflict, used by the
C1 witness. -/
def conflictEnv : RenderEnv :=
  { baseEnv with shouldOutputImageSequence := true, userCodec := some Codec.h264 }

theorem codecWarnings_all_warn (c : Codec) (fs : List String) :
    (codecWarnings c fs).all Event.isWarn = true := by
  unfold codecWarnings
  split_ifs <;> rfl

theorem codecWarnings_warn (c : Codec) (fs : List String) :
    ∀ e ∈ codecWarnings c fs, Event.isWarn e = true := by
  intro e he
  exact List.all_eq_true.1 (codecWarnings_all_warn c fs) e he

theorem warn_event_shape {e : Event} (h : Event.isWarn e = true) :
    ∃ s, e = Event.warnCodecFeature s := by
  cases e <;> simp_all [Event.isWarn]

theorem precededBy_append {p q : Event → Bool} {l r : List Event}
    (h : ∀ e ∈ l, p e = false ∧ q e = false) :
    precededBy p q (l ++ r) = precededBy p q r := by
  induction l with
  | nil => rfl
  | cons x xs ih =>
    have hx := h x (by simp)
    simp only [List.cons_append, precededBy, hx.1, hx.2, if_false]
    exact ih fun e he => h e (by simp [he])

theorem precededBy_append_warn {p q : Event → Bool} {r : List Event}
    (c : Codec) (fs : List String)
    (hp : ∀ s, p (Event.warnCodecFeature s) = false)
    (hq : ∀ s, q (Event.warnCodecFeature s) = false) :
    precededBy p q (codecWarnings c fs ++ r) = precededBy p q r := by
  refine precededBy_append fun e he => ?_
  obtain ⟨s, rfl⟩ := warn_event_shape (codecWarnings_warn c fs e he)
  exact ⟨hp s, hq s⟩

theorem mem_codecWarnings_elim {e : Event} {c : Codec} {fs : List String}
    (he : e ∈ codecWarnings c fs) : Event.isWarn e = true :=
  codecWarnings_warn c fs e he

theorem filter_append_warn (c : Codec) (fs : List String) (r : List Event)
    {p : Event → Bool} (hp : ∀ s, p (Event.warnCodecFeature s) = false) :
    (codecWarnings c fs ++ r).filter p = r.filter p := by
  rw [List.filter_append]
  have : (codecWarnings c fs).filter p = [] := by
    rw [List.filter_eq_nil_iff]
    intro e he
    obtain ⟨s, rfl⟩ := warn_event_shape (mem_codecWarnings_elim he)
    simp [hp s]
  rw [this, List.nil_append]

/-- C1: a request with outputsImageSequence = true and an explicit codec is
rejected with exit code 1 before any collaborator is invoked and before any
directory is created: the run exits with code 1 and an empty effect trace. -/
theorem c1_conflict_rejected_first (env : RenderEnv)
    (h1 : env.shouldOutputImageSequence = true)
    (h2 : env.userCodec.isSome = true) :
    render env = (RunResult.exited 1, []) := by
  unfold render
  simp [h1, h2]

theorem not_mem_codecWarnings {e : Event} (c : Codec) (fs : List String)
    (h : Event.isWarn e = false) : e ∉ codecWarnings c fs := by
  intro hmem
  simp [codecWarnings_warn c fs e hmem] at h

theorem mem_append_warn {e : Event} {r : List Event} {c : Codec} {fs : List String}
    (h : Event.isWarn e = false) : (e ∈ codecWarnings c fs ++ r) ↔ e ∈ r := by
  rw [List.mem_append]
  exact or_iff_right (not_mem_codecWarnings c fs h)

theorem c1_witness :
    conflictEnv.shouldOutputImageSequence = true ∧
    conflictEnv.userCodec.isSome = true ∧
    render conflictEnv = (RunResult.exited 1, []) :=
  ⟨rfl, rfl, c1_conflict_rejected_first conflictEnv rfl rfl⟩

/-- C7: a request whose resolved absolute output path already exists with the
overwrite flag false exits with code 1; its trace holds no collaborator
invocation and no directory creation, so the existing file is untouched. -/
theorem c7_existing_output_rejected (env : RenderEnv)
    (h1 : env.outputFileExists = true) (h2 : env.overwrite = false) :
    (render env).1 = RunResult.exited 1 ∧
    ∀ e ∈ (render env).2, e.isCollaborator = false ∧ e.isDirCreation = false := by
  by_cases hc : (env.shouldOutputImageSequence && env.userCodec.isSome) = true
  · constructor
    · simp [render, hc]
    · intro e he
      simp [render, hc] at he
  · have hcore : renderCore env = (RunResult.exited 1, [Event.checkOverwrite]) := by
      unfold renderCore
      simp [h1, h2]
    constructor
    · simp [render, hc, hcore]
    · intro e he
      simp only [render, hc, if_false, hcore] at he
      rcases List.mem_append.1 he with hw | hck
      · obtain ⟨s, rfl⟩ := warn_event_shape (mem_codecWarnings_elim hw)
        exact ⟨rfl, rfl⟩
      · rw [List.mem_singleton] at hck
        subst hck
        exact ⟨rfl, rfl⟩

/-- Concrete environment whose output path pre-exists without overwrite. -/
def existsEnv : RenderEnv := { baseEnv with outputFileExists := true }

theorem c7_witness :
    existsEnv.outputFileExists = true ∧ existsEnv.overwrite = false ∧
    ((render existsEnv).1 = RunResult.exited 1 ∧
      ∀ e ∈ (render existsEnv).2, e.isCollaborator = false ∧ e.isDirCreation = false) :=
  ⟨rfl, rfl, c7_existing_output_rejected existsEnv rfl rfl⟩

set_option maxHeartbeats 1600000 in
/-- Elimination principle for renderCore: to prove a property of the result
of renderCore it suffices to prove it for each exit point of the source,
under exactly the guards that lead there.  The hypotheses follow the order
of the early exits in render.tsx. -/
theorem renderCore_elim (env : RenderEnv) (P : RunResult × List Event → Prop)
    (hExit : (env.outputFileExists && !env.overwrite) = true →
      P (RunResult.exited 1, [Event.checkOverwrite]))
    (hFfmpeg : (env.outputFileExists && !env.overwrite) = false →
      (!env.shouldOutputImageSequence && !env.validateFfmpegOk) = true →
      P (RunResult.threw RunError.ffmpegMissing,
        [Event.checkOverwrite, Event.callValidateFfmpeg]))
    (hCrf : (env.outputFileExists && !env.overwrite) = false →
      (!env.shouldOutputImageSequence && !env.validateFfmpegOk) = false →
      (!(crfOf env).isJsNull && !validateCrfVal (crfOf env) env.resolvedCodec) = true →
      P (RunResult.threw RunError.invalidCrfForCodec, validationTrace env))
    (hPixCodec : (env.outputFileExists && !env.overwrite) = false →
      (!env.shouldOutputImageSequence && !env.validateFfmpegOk) = false →
      (!(crfOf env).isJsNull && !validateCrfVal (crfOf env) env.resolvedCodec) = false →
      env.pixelFormatCodecOk = false →
      P (RunResult.threw RunError.invalidPixelFormatCodec, validationTrace env))
    (hPixImg : (env.outputFileExists && !env.overwrite) = false →
      (!env.shouldOutputImageSequence && !env.validateFfmpegOk) = false →
      (!(crfOf env).isJsNull && !validateCrfVal (crfOf env) env.resolvedCodec) = false →
      env.pixelFormatCodecOk = true → env.pixelFormatImageFormatOk = false →
      P (RunResult.threw RunError.invalidPixelFormatImageFormat, validationTrace env))
    (hBundle : (env.outputFileExists && !env.overwrite) = false →
      (!env.shouldOutputImageSequence && !env.validateFfmpegOk) = false →
      (!(crfOf env).isJsNull && !validateCrfVal (crfOf env) env.resolvedCodec) = false →
      env.pixelFormatCodecOk = true → env.pixelFormatImageFormatOk = true →
      env.bundleOk = false →
      P (RunResult.threw RunError.bundleFailed, bundleTrace env))
    (hComps : (env.outputFileExists && !env.overwrite) = false →
      (!env.shouldOutputImageSequence && !env.validateFfmpegOk) = false →
      (!(crfOf env).isJsNull && !validateCrfVal (crfOf env) env.resolvedCodec) = false →
      env.pixelFormatCodecOk = true → env.pixelFormatImageFormatOk = true →
      env.bundleOk = true → env.getCompositionsOk = false →
      P (RunResult.threw RunError.getCompositionsFailed, compsTrace env))
    (hNotFound : (env.outputFileExists && !env.overwrite) = false →
      (!env.shouldOutputImageSequence && !env.validateFfmpegOk) = false →
      (!(crfOf env).isJsNull && !validateCrfVal (crfOf env) env.resolvedCodec) = false →
      env.pixelFormatCodecOk = true → env.pixelFormatImageFormatOk = true →
      env.bundleOk = true → env.getCompositionsOk = true →
      env.comps.find? (fun c => c.id == env.compositionId) = none →
      P (RunResult.threw (RunError.compositionNotFound env.compositionId),
        compsTrace env))
    (hFramesFail : ∀ config, (env.outputFileExists && !env.overwrite) = false →
      (!env.shouldOutputImageSequence && !env.validateFfmpegOk) = false →
      (!(crfOf env).isJsNull && !validateCrfVal (crfOf env) env.resolvedCodec) = false →
      env.pixelFormatCodecOk = true → env.pixelFormatImageFormatOk = true →
      env.bundleOk = true → env.getCompositionsOk = true →
      env.comps.find? (fun c => c.id == env.compositionId) = some config →
      env.renderFramesOk = false →
      P (RunResult.threw RunError.renderFramesFailed,
        framesTrace env config.durationInFrames))
    (hSeqDone : ∀ config, (env.outputFileExists && !env.overwrite) = false →
      (!env.shouldOutputImageSequence && !env.validateFfmpegOk) = false →
      (!(crfOf env).isJsNull && !validateCrfVal (crfOf env) env.resolvedCodec) = false →
      env.pixelFormatCodecOk = true → env.pixelFormatImageFormatOk = true →
      env.bundleOk = true → env.getCompositionsOk = true →
      env.comps.find? (fun c => c.id == env.compositionId) = some config →
      env.renderFramesOk = true → env.shouldOutputImageSequence = true →
      P (RunResult.done, postFramesTrace env config.durationInFrames))
    (hStitchFail : ∀ config n, (env.outputFileExists && !env.overwrite) = false →
      (!env.shouldOutputImageSequence && !env.validateFfmpegOk) = false →
      (!(crfOf env).isJsNull && !validateCrfVal (crfOf env) env.resolvedCodec) = false →
      env.pixelFormatCodecOk = true → env.pixelFormatImageFormatOk = true →
      env.bundleOk = true → env.getCompositionsOk = true →
      env.comps.find? (fun c => c.id == env.compositionId) = some config →
      env.renderFramesOk = true → env.shouldOutputImageSequence = false →
      crfOf env = CrfVal.num n → env.stitchOk = false →
      P (RunResult.threw RunError.stitchFailed,
        stitchTrace env n config.durationInFrames))
    (hVideoDone : ∀ config n, (env.outputFileExists && !env.overwrite) = false →
      (!env.shouldOutputImageSequence && !env.validateFfmpegOk) = false →
      (!(crfOf env).isJsNull && !validateCrfVal (crfOf env) env.resolvedCodec) = false →
      env.pixelFormatCodecOk = true → env.pixelFormatImageFormatOk = true →
      env.bundleOk = true → env.getCompositionsOk = true →
      env.comps.find? (fun c => c.id == env.compositionId) = some config →
      env.renderFramesOk = true → env.shouldOutputImageSequence = false →
      crfOf env = CrfVal.num n → env.stitchOk = true →
      P (RunResult.done,
        stitchTrace env n config.durationInFrames ++
          [Event.rmdirFrameDir, Event.rmdirBundleDir]))
    (hNotNum : ∀ config, (env.outputFileExists && !env.overwrite) = false →
      (!env.shouldOutputImageSequence && !env.validateFfmpegOk) = false →
      (!(crfOf env).isJsNull && !validateCrfVal (crfOf env) env.resolvedCodec) = false →
      env.pixelFormatCodecOk = true → env.pixelFormatImageFormatOk = true →
      env.bundleOk = true → env.getCompositionsOk = true →
      env.comps.find? (fun c => c.id == env.compositionId) = some config →
      env.renderFramesOk = true → env.shouldOutputImageSequence = false →
      (∀ n, crfOf env ≠ CrfVal.num n) →
      P (RunResult.threw RunError.crfNotANumber,
        postFramesTrace env config.durationInFrames)) :
    P (renderCore env) := by
  unfold renderCore
  split
  next g1 => exact hExit g1
  next g1 =>
  rw [Bool.not_eq_true] at g1
  split
  next g2 => exact hFfmpeg g1 g2
  next g2 =>
  rw [Bool.not_eq_true] at g2
  split
  next g3 => exact hCrf g1 g2 g3
  next g3 =>
  rw [Bool.not_eq_true] at g3
  split
  next g4 => exact hPixCodec g1 g2 g3 (by simpa using g4)
  next g4 =>
  replace g4 : env.pixelFormatCodecOk = true := by simpa using g4
  split
  next g5 => exact hPixImg g1 g2 g3 g4 (by simpa using g5)
  next g5 =>
  replace g5 : env.pixelFormatImageFormatOk = true := by simpa using g5
  split
  next g6 => exact hBundle g1 g2 g3 g4 g5 (by simpa using g6)
  next g6 =>
  replace g6 : env.bundleOk = true := by simpa using g6
  split
  next g7 => exact hComps g1 g2 g3 g4 g5 g6 (by simpa using g7)
  next g7 =>
  replace g7 : env.getCompositionsOk = true := by simpa using g7
  split
  next hfind => exact hNotFound g1 g2 g3 g4 g5 g6 g7 hfind
  next config hfind =>
  split
  next g9 => exact hFramesFail config g1 g2 g3 g4 g5 g6 g7 hfind (by simpa using g9)
  next g9 =>
  replace g9 : env.renderFramesOk = true := by simpa using g9
  split
  next g10 => exact hSeqDone config g1 g2 g3 g4 g5 g6 g7 hfind g9 g10
  next g10 =>
  rw [Bool.not_eq_true] at g10
  split
  next n hcrf =>
    split
    next g11 =>
      exact hStitchFail config n g1 g2 g3 g4 g5 g6 g7 hfind g9 g10 hcrf
        (by simpa using g11)
    next g11 =>
      exact hVideoDone config n g1 g2 g3 g4 g5 g6 g7 hfind g9 g10 hcrf
        (by simpa using g11)
  next a b hnotnum =>
    exact hNotNum config g1 g2 g3 g4 g5 g6 g7 hfind g9 g10 hnotnum

theorem precededBy_of_no_q {p q : Event → Bool} {l : List Event}
    (h : ∀ e ∈ l, q e = false) : precededBy p q l = true := by
  induction l with
  | nil => rfl
  | cons x xs ih =>
    have hx : q x = false := h x (List.mem_cons_self x xs)
    simp only [precededBy, hx, Bool.false_eq_true, if_false]
    split
    · rfl
    · exact ih fun e he => h e (List.mem_cons_of_mem x he)

theorem precededBy_intro {p q : Event → Bool} {l₁ l₂ : List Event} {x : Event}
    (h : ∀ e ∈ l₁, q e = false) (hx : p x = true) (hqx : q x = false) :
    precededBy p q (l₁ ++ x :: l₂) = true := by
  induction l₁ with
  | nil =>
    simp only [List.nil_append, precededBy, hqx, hx, Bool.false_eq_true, if_false,
      if_true]
  | cons y ys ih =>
    have hy : q y = false := h y (List.mem_cons_self y ys)
    simp only [List.cons_append, precededBy, hy, Bool.false_eq_true, if_false]
    split
    · rfl
    · exact ih fun e he => h e (List.mem_cons_of_mem y he)

theorem mem_validationTrace {e : Event} {env : RenderEnv} :
    e ∈ validationTrace env ↔
      e = Event.checkOverwrite ∨
      (env.shouldOutputImageSequence = false ∧
        (e = Event.callValidateFfmpeg ∨ e = Event.callGetActualCrf)) ∨
      ((crfOf env).isJsNull = false ∧ e = Event.callValidateCrf) := by
  unfold validationTrace
  cases himg : env.shouldOutputImageSequence <;>
  cases hnull : (crfOf env).isJsNull <;>
  simp [himg, hnull] <;> tauto

theorem mem_bundleTrace {e : Event} {env : RenderEnv} :
    e ∈ bundleTrace env ↔
      e ∈ validationTrace env ∨
      (env.shouldOutputImageSequence = true ∧ e = Event.mkdirOutputDir) ∨
      e = Event.callBundle := by
  unfold bundleTrace
  cases himg : env.shouldOutputImageSequence <;> simp [himg]

theorem mem_compsTrace {e : Event} {env : RenderEnv} :
    e ∈ compsTrace env ↔ e ∈ bundleTrace env ∨ e = Event.callGetCompositions := by
  unfold compsTrace
  simp

theorem mem_framesTrace {e : Event} {env : RenderEnv} {d : Nat} :
    e ∈ framesTrace env d ↔
      e ∈ compsTrace env ∨
      (env.shouldOutputImageSequence = false ∧ e = Event.mkdtempFrameDir) ∨
      e = Event.callRenderFrames d := by
  unfold framesTrace
  cases himg : env.shouldOutputImageSequence <;> simp [himg]

theorem mem_postFramesTrace {e : Event} {env : RenderEnv} {d : Nat} :
    e ∈ postFramesTrace env d ↔
      e ∈ framesTrace env d ∨ (env.debugEnv = true ∧ e = Event.logPerf) := by
  unfold postFramesTrace
  cases hdbg : env.debugEnv <;> simp [hdbg]

theorem mem_stitchTrace {e : Event} {env : RenderEnv} {n : Int} {d : Nat} :
    e ∈ stitchTrace env n d ↔
      e ∈ postFramesTrace env d ∨ e = Event.callStitch n d := by
  unfold stitchTrace
  simp

theorem compsTrace_shape {env : RenderEnv} :
    ∀ e ∈ compsTrace env,
      e = Event.checkOverwrite ∨ e = Event.callValidateFfmpeg ∨
      e = Event.callGetActualCrf ∨ e = Event.callValidateCrf ∨
      e = Event.mkdirOutputDir ∨ e = Event.callBundle ∨
      e = Event.callGetCompositions := by
  intro e he
  rcases mem_compsTrace.1 he with h | rfl
  · rcases mem_bundleTrace.1 h with h | ⟨_, rfl⟩ | rfl
    · rcases mem_validationTrace.1 h with rfl | ⟨_, rfl | rfl⟩ | ⟨_, rfl⟩ <;> tauto
    · tauto
    · tauto
  · tauto

theorem postFramesTrace_shape {env : RenderEnv} {d : Nat} :
    ∀ e ∈ postFramesTrace env d,
      e = Event.checkOverwrite ∨ e = Event.callValidateFfmpeg ∨
      e = Event.callGetActualCrf ∨ e = Event.callValidateCrf ∨
      e = Event.mkdirOutputDir ∨ e = Event.callBundle ∨
      e = Event.callGetCompositions ∨ e = Event.mkdtempFrameDir ∨
      e = Event.callRenderFrames d ∨ e = Event.logPerf := by
  intro e he
  rcases mem_postFramesTrace.1 he with h | ⟨_, rfl⟩
  · rcases mem_framesTrace.1 h with h | ⟨_, rfl⟩ | rfl
    · rcases compsTrace_shape e h with rfl | rfl | rfl | rfl | rfl | rfl | rfl <;> tauto
    · tauto
    · tauto
  · tauto

theorem compsTrace_free {env : RenderEnv} {p : Event → Bool}
    (h1 : p Event.checkOverwrite = false) (h2 : p Event.callValidateFfmpeg = false)
    (h3 : p Event.callGetActualCrf = false) (h4 : p Event.callValidateCrf = false)
    (h5 : p Event.mkdirOutputDir = false) (h6 : p Event.callBundle = false)
    (h7 : p Event.callGetCompositions = false) :
    ∀ e ∈ compsTrace env, p e = false := by
  intro e he
  rcases compsTrace_shape e he with rfl | rfl | rfl | rfl | rfl | rfl | rfl <;>
    assumption

theorem postFramesTrace_free {env : RenderEnv} {d : Nat} {p : Event → Bool}
    (h1 : p Event.checkOverwrite = false) (h2 : p Event.callValidateFfmpeg = false)
    (h3 : p Event.callGetActualCrf = false) (h4 : p Event.callValidateCrf = false)
    (h5 : p Event.mkdirOutputDir = false) (h6 : p Event.callBundle = false)
    (h7 : p Event.callGetCompositions = false) (h8 : p Event.mkdtempFrameDir = false)
    (h9 : p (Event.callRenderFrames d) = false) (h10 : p Event.logPerf = false) :
    ∀ e ∈ postFramesTrace env d, p e = false := by
  intro e he
  rcases postFramesTrace_shape e he with
    rfl | rfl | rfl | rfl | rfl | rfl | rfl | rfl | rfl | rfl <;> assumption

theorem preStitch_no_stitch {env : RenderEnv} :
    ∀ e ∈ compsTrace env ++
      (if env.shouldOutputImageSequence then [] else [Event.mkdtempFrameDir]),
      Event.isStitch e = false := by
  intro e he
  rcases List.mem_append.1 he with h | h
  · exact compsTrace_free rfl rfl rfl rfl rfl rfl rfl e h
  · cases himg : env.shouldOutputImageSequence <;> rw [himg] at h <;> simp at h
    subst h
    rfl

theorem stitchTrace_append_decomp (env : RenderEnv) (n : Int) (d : Nat)
    (r : List Event) :
    stitchTrace env n d ++ r =
      (compsTrace env ++
        (if env.shouldOutputImageSequence then [] else [Event.mkdtempFrameDir])) ++
        Event.callRenderFrames d ::
          ((if env.debugEnv then [Event.logPerf] else []) ++
            Event.callStitch n d :: r) := by
  unfold stitchTrace postFramesTrace framesTrace
  simp [List.append_assoc]

theorem stitchTrace_decomp (env : RenderEnv) (n : Int) (d : Nat) :
    stitchTrace env n d =
      (compsTrace env ++
        (if env.shouldOutputImageSequence then [] else [Event.mkdtempFrameDir])) ++
        Event.callRenderFrames d ::
          ((if env.debugEnv then [Event.logPerf] else []) ++
            [Event.callStitch n d]) := by
  have := stitchTrace_append_decomp env n d []
  simpa using this

theorem renderCore_stitch (env : RenderEnv) :
    (env.shouldOutputImageSequence = true →
      ∀ n f, Event.callStitch n f ∉ (renderCore env).2) ∧
    precededBy Event.isRenderFrames Event.isStitch (renderCore env).2 = true ∧
    (∀ n f, Event.callStitch n f ∈ (renderCore env).2 →
      Event.callRenderFrames f ∈ (renderCore env).2 ∧ env.renderFramesOk = true) := by
  refine renderCore_elim env (fun rt =>
    (env.shouldOutputImageSequence = true → ∀ n f, Event.callStitch n f ∉ rt.2) ∧
    precededBy Event.isRenderFrames Event.isStitch rt.2 = true ∧
    (∀ n f, Event.callStitch n f ∈ rt.2 →
      Event.callRenderFrames f ∈ rt.2 ∧ env.renderFramesOk = true))
    ?_ ?_ ?_ ?_ ?_ ?_ ?_ ?_ ?_ ?_ ?_ ?_ ?_
  · intro _
    exact ⟨fun _ n f h => by simp at h, rfl, fun n f h => by simp at h⟩
  · intro _ _
    exact ⟨fun _ n f h => by simp at h, rfl, fun n f h => by simp at h⟩
  · intro _ _ _
    refine ⟨fun _ n f h => ?_, ?_, fun n f h => ?_⟩
    · simp [mem_validationTrace] at h
    · refine precededBy_of_no_q fun e he => ?_
      rcases mem_validationTrace.1 he with rfl | ⟨_, rfl | rfl⟩ | ⟨_, rfl⟩ <;> rfl
    · simp [mem_validationTrace] at h
  · intro _ _ _ _
    refine ⟨fun _ n f h => ?_, ?_, fun n f h => ?_⟩
    · simp [mem_validationTrace] at h
    · refine precededBy_of_no_q fun e he => ?_
      rcases mem_validationTrace.1 he with rfl | ⟨_, rfl | rfl⟩ | ⟨_, rfl⟩ <;> rfl
    · simp [mem_validationTrace] at h
  · intro _ _ _ _ _
    refine ⟨fun _ n f h => ?_, ?_, fun n f h => ?_⟩
    · simp [mem_validationTrace] at h
    · refine precededBy_of_no_q fun e he => ?_
      rcases mem_validationTrace.1 he with rfl | ⟨_, rfl | rfl⟩ | ⟨_, rfl⟩ <;> rfl
    · simp [mem_validationTrace] at h
  · intro _ _ _ _ _ _
    refine ⟨fun _ n f h => ?_, ?_, fun n f h => ?_⟩
    · simp [mem_bundleTrace, mem_validationTrace] at h
    · refine precededBy_of_no_q fun e he => ?_
      rcases mem_bundleTrace.1 he with h2 | ⟨_, rfl⟩ | rfl
      · rcases mem_validationTrace.1 h2 with rfl | ⟨_, rfl | rfl⟩ | ⟨_, rfl⟩ <;> rfl
      · rfl
      · rfl
    · simp [mem_bundleTrace, mem_validationTrace] at h
  · intro _ _ _ _ _ _ _
    refine ⟨fun _ n f h => ?_, ?_, fun n f h => ?_⟩
    · simp [mem_compsTrace, mem_bundleTrace, mem_validationTrace] at h
    · exact precededBy_of_no_q (compsTrace_free rfl rfl rfl rfl rfl rfl rfl)
    · simp [mem_compsTrace, mem_bundleTrace, mem_validationTrace] at h
  · intro _ _ _ _ _ _ _ _
    refine ⟨fun _ n f h => ?_, ?_, fun n f h => ?_⟩
    · simp [mem_compsTrace, mem_bundleTrace, mem_validationTrace] at h
    · exact precededBy_of_no_q (compsTrace_free rfl rfl rfl rfl rfl rfl rfl)
    · simp [mem_compsTrace, mem_bundleTrace, mem_validationTrace] at h
  · intro config _ _ _ _ _ _ _ _ _
    refine ⟨fun _ n f h => ?_, ?_, fun n f h => ?_⟩
    · simp [mem_framesTrace, mem_compsTrace, mem_bundleTrace,
        mem_validationTrace] at h
    · refine precededBy_of_no_q fun e he => ?_
      rcases mem_framesTrace.1 he with h2 | ⟨_, rfl⟩ | rfl
      · exact compsTrace_free rfl rfl rfl rfl rfl rfl rfl e h2
      · rfl
      · rfl
    · simp [mem_framesTrace, mem_compsTrace, mem_bundleTrace,
        mem_validationTrace] at h
  · intro config _ _ _ _ _ _ _ _ _ _
    refine ⟨fun _ n f h => ?_, ?_, fun n f h => ?_⟩
    · simp [mem_postFramesTrace, mem_framesTrace, mem_compsTrace, mem_bundleTrace,
        mem_validationTrace] at h
    · exact precededBy_of_no_q
        (postFramesTrace_free rfl rfl rfl rfl rfl rfl rfl rfl rfl rfl)
    · simp [mem_postFramesTrace, mem_framesTrace, mem_compsTrace, mem_bundleTrace,
        mem_validationTrace] at h
  · intro config n0 _ _ _ _ _ _ _ _ g9 g10 hcrf _
    refine ⟨fun himg => ?_, ?_, fun n f h => ?_⟩
    · rw [himg] at g10
      exact absurd g10 (by decide)
    · rw [stitchTrace_decomp]
      exact precededBy_intro preStitch_no_stitch rfl rfl
    · rcases mem_stitchTrace.1 h with h2 | heq
      · exfalso
        simp [mem_postFramesTrace, mem_framesTrace, mem_compsTrace, mem_bundleTrace,
          mem_validationTrace] at h2
      · obtain ⟨rfl, rfl⟩ : n = n0 ∧ f = config.durationInFrames := by
          injection heq with i1 i2
          exact ⟨i1, i2⟩
        refine ⟨?_, g9⟩
        exact mem_stitchTrace.2 (Or.inl (mem_postFramesTrace.2 (Or.inl
          (mem_framesTrace.2 (Or.inr (Or.inr rfl))))))
  · intro config n0 _ _ _ _ _ _ _ _ g9 g10 hcrf _
    refine ⟨fun himg => ?_, ?_, fun n f h => ?_⟩
    · rw [himg] at g10
      exact absurd g10 (by decide)
    · rw [stitchTrace_append_decomp]
      exact precededBy_intro preStitch_no_stitch rfl rfl
    · rcases List.mem_append.1 h with h2 | h2
      · rcases mem_stitchTrace.1 h2 with h3 | heq
        · exfalso
          simp [mem_postFramesTrace, mem_framesTrace, mem_compsTrace,
            mem_bundleTrace, mem_validationTrace] at h3
        · obtain ⟨rfl, rfl⟩ : n = n0 ∧ f = config.durationInFrames := by
            injection heq with i1 i2
            exact ⟨i1, i2⟩
          refine ⟨?_, g9⟩
          exact List.mem_append.2 (Or.inl (mem_stitchTrace.2 (Or.inl
            (mem_postFramesTrace.2 (Or.inl
              (mem_framesTrace.2 (Or.inr (Or.inr rfl))))))))
      · simp at h2
  · intro config _ _ _ _ _ _ _ _ _ g10 _
    refine ⟨fun himg => ?_, ?_, fun n f h => ?_⟩
    · rw [himg] at g10
      exact absurd g10 (by decide)
    · exact precededBy_of_no_q
        (postFramesTrace_free rfl rfl rfl rfl rfl rfl rfl rfl rfl rfl)
    · exfalso
      simp [mem_postFramesTrace, mem_framesTrace, mem_compsTrace, mem_bundleTrace,
        mem_validationTrace] at h

/-- C5: the encoder collaborator is only ever invoked after the awaited
frame-rendering collaborator call has completed for the whole frame range of
the resolved composition (same frame count, strictly earlier in the effect
trace), and in image-sequence mode the encoder is never invoked at all. -/
theorem c5_stitch_after_full_render (env : RenderEnv) :
    (env.shouldOutputImageSequence = true →
      ∀ n f, Event.callStitch n f ∉ (render env).2) ∧
    precededBy Event.isRenderFrames Event.isStitch (render env).2 = true ∧
    (∀ n f, Event.callStitch n f ∈ (render env).2 →
      Event.callRenderFrames f ∈ (render env).2 ∧ env.renderFramesOk = true) := by
  obtain ⟨hA, hB, hC⟩ := renderCore_stitch env
  by_cases hc : (env.shouldOutputImageSequence && env.userCodec.isSome) = true
  · refine ⟨fun _ n f h => ?_, ?_, fun n f h => ?_⟩
    · simp [render, hc] at h
    · simp [render, hc, precededBy]
    · simp [render, hc] at h
  · have htr : (render env).2 =
        codecWarnings env.resolvedCodec env.ffmpegFeatures ++ (renderCore env).2 := by
      simp [render, hc]
    refine ⟨fun himg n f h => ?_, ?_, fun n f h => ?_⟩
    · rw [htr, @mem_append_warn (Event.callStitch n f) _ _ _ rfl] at h
      exact hA himg n f h
    · rw [htr, precededBy_append_warn _ _ (fun s => rfl) (fun s => rfl)]
      exact hB
    · rw [htr, @mem_append_warn (Event.callStitch n f) _ _ _ rfl] at h
      obtain ⟨h1, h2⟩ := hC n f h
      refine ⟨?_, h2⟩
      rw [htr, @mem_append_warn (Event.callRenderFrames f) _ _ _ rfl]
      exact h1

/-- Concrete healthy image-sequence environment, used by witnesses. -/
def seqEnv : RenderEnv := { baseEnv with shouldOutputImageSequence := true }

theorem c5_witness :
    precededBy Event.isRenderFrames Event.isStitch (render baseEnv).2 = true ∧
    Event.callStitch 18 30 ∉ (render seqEnv).2 :=
  ⟨(c5_stitch_after_full_render baseEnv).2.1,
    (c5_stitch_after_full_render seqEnv).1 rfl 18 30⟩

theorem renderCore_cleanup (env : RenderEnv) :
    (env.shouldOutputImageSequence = false → (renderCore env).1 = RunResult.done →
      Event.rmdirFrameDir ∈ (renderCore env).2 ∧
        Event.rmdirBundleDir ∈ (renderCore env).2) ∧
    (env.shouldOutputImageSequence = true →
      Event.rmdirFrameDir ∉ (renderCore env).2 ∧
        Event.rmdirBundleDir ∉ (renderCore env).2) ∧
    (∀ er, (renderCore env).1 = RunResult.threw er →
      Event.rmdirFrameDir ∉ (renderCore env).2 ∧
        Event.rmdirBundleDir ∉ (renderCore env).2) := by
  refine renderCore_elim env (fun rt =>
    (env.shouldOutputImageSequence = false → rt.1 = RunResult.done →
      Event.rmdirFrameDir ∈ rt.2 ∧ Event.rmdirBundleDir ∈ rt.2) ∧
    (env.shouldOutputImageSequence = true →
      Event.rmdirFrameDir ∉ rt.2 ∧ Event.rmdirBundleDir ∉ rt.2) ∧
    (∀ er, rt.1 = RunResult.threw er →
      Event.rmdirFrameDir ∉ rt.2 ∧ Event.rmdirBundleDir ∉ rt.2))
    ?_ ?_ ?_ ?_ ?_ ?_ ?_ ?_ ?_ ?_ ?_ ?_ ?_
  · intro _
    exact ⟨fun _ h => by simp at h, fun _ => ⟨by simp, by simp⟩,
      fun er _ => ⟨by simp, by simp⟩⟩
  · intro _ _
    exact ⟨fun _ h => by simp at h, fun _ => ⟨by simp, by simp⟩,
      fun er _ => ⟨by simp, by simp⟩⟩
  · intro _ _ _
    exact ⟨fun _ h => by simp at h,
      fun _ => ⟨by simp [mem_validationTrace], by simp [mem_validationTrace]⟩,
      fun er _ => ⟨by simp [mem_validationTrace], by simp [mem_validationTrace]⟩⟩
  · intro _ _ _ _
    exact ⟨fun _ h => by simp at h,
      fun _ => ⟨by simp [mem_validationTrace], by simp [mem_validationTrace]⟩,
      fun er _ => ⟨by simp [mem_validationTrace], by simp [mem_validationTrace]⟩⟩
  · intro _ _ _ _ _
    exact ⟨fun _ h => by simp at h,
      fun _ => ⟨by simp [mem_validationTrace], by simp [mem_validationTrace]⟩,
      fun er _ => ⟨by simp [mem_validationTrace], by simp [mem_validationTrace]⟩⟩
  · intro _ _ _ _ _ _
    exact ⟨fun _ h => by simp at h,
      fun _ => ⟨by simp [mem_bundleTrace, mem_validationTrace],
        by simp [mem_bundleTrace, mem_validationTrace]⟩,
      fun er _ => ⟨by simp [mem_bundleTrace, mem_validationTrace],
        by simp [mem_bundleTrace, mem_validationTrace]⟩⟩
  · intro _ _ _ _ _ _ _
    exact ⟨fun _ h => by simp at h,
      fun _ => ⟨by simp [mem_compsTrace, mem_bundleTrace, mem_validationTrace],
        by simp [mem_compsTrace, mem_bundleTrace, mem_validationTrace]⟩,
      fun er _ => ⟨by simp [mem_compsTrace, mem_bundleTrace, mem_validationTrace],
        by simp [mem_compsTrace, mem_bundleTrace, mem_validationTrace]⟩⟩
  · intro _ _ _ _ _ _ _ _
    exact ⟨fun _ h => by simp at h,
      fun _ => ⟨by simp [mem_compsTrace, mem_bundleTrace, mem_validationTrace],
        by simp [mem_compsTrace, mem_bundleTrace, mem_validationTrace]⟩,
      fun er _ => ⟨by simp [mem_compsTrace, mem_bundleTrace, mem_validationTrace],
        by simp [mem_compsTrace, mem_bundleTrace, mem_validationTrace]⟩⟩
  · intro config _ _ _ _ _ _ _ _ _
    exact ⟨fun _ h => by simp at h,
      fun _ => ⟨by simp [mem_framesTrace, mem_compsTrace, mem_bundleTrace,
          mem_validationTrace],
        by simp [mem_framesTrace, mem_compsTrace, mem_bundleTrace,
          mem_validationTrace]⟩,
      fun er _ => ⟨by simp [mem_framesTrace, mem_compsTrace, mem_bundleTrace,
          mem_validationTrace],
        by simp [mem_framesTrace, mem_compsTrace, mem_bundleTrace,
          mem_validationTrace]⟩⟩
  · intro config _ _ _ _ _ _ _ _ _ g10
    refine ⟨fun himg _ => ?_, fun _ => ?_, fun er h => by simp at h⟩
    · rw [himg] at g10
      exact absurd g10 (by decide)
    · exact ⟨by simp [mem_postFramesTrace, mem_framesTrace, mem_compsTrace,
          mem_bundleTrace, mem_validationTrace],
        by simp [mem_postFramesTrace, mem_framesTrace, mem_compsTrace,
          mem_bundleTrace, mem_validationTrace]⟩
  · intro config n0 _ _ _ _ _ _ _ _ _ g10 _ _
    refine ⟨fun _ h => by simp at h, fun himg => ?_, fun er _ => ?_⟩
    · rw [himg] at g10
      exact absurd g10 (by decide)
    · exact ⟨by simp [mem_stitchTrace, mem_postFramesTrace, mem_framesTrace,
          mem_compsTrace, mem_bundleTrace, mem_validationTrace],
        by simp [mem_stitchTrace, mem_postFramesTrace, mem_framesTrace,
          mem_compsTrace, mem_bundleTrace, mem_validationTrace]⟩
  · intro config n0 _ _ _ _ _ _ _ _ _ g10 _ _
    refine ⟨fun _ _ => ?_, fun himg => ?_, fun er h => by simp at h⟩
    · exact ⟨List.mem_append.2 (Or.inr (by simp)),
        List.mem_append.2 (Or.inr (by simp))⟩
    · rw [himg] at g10
      exact absurd g10 (by decide)
  · intro config _ _ _ _ _ _ _ _ _ g10 _
    refine ⟨fun _ h => by simp at h, fun himg => ?_, fun er _ => ?_⟩
    · rw [himg] at g10
      exact absurd g10 (by decide)
    · exact ⟨by simp [mem_postFramesTrace, mem_framesTrace, mem_compsTrace,
          mem_bundleTrace, mem_validationTrace],
        by simp [mem_postFramesTrace, mem_framesTrace, mem_compsTrace,
          mem_bundleTrace, mem_validationTrace]⟩

theorem c2_counterexample :
    (render seqEnv).1 = RunResult.done ∧
    Event.callRenderFrames 30 ∈ (render seqEnv).2 ∧
    Event.rmdirBundleDir ∉ (render seqEnv).2 := by
  decide

/-- C2 (amended): ephemeral-path disposal happens exactly on the successful
video-mode exit path: a video run ending in Done removes both the frame
directory and the packaging artifact directory, while an image-sequence run
(even a successful one that rendered all frames) and every failing exit path
dispose nothing. -/
theorem c2_cleanup_only_on_video_success (env : RenderEnv) :
    (env.shouldOutputImageSequence = false → (render env).1 = RunResult.done →
      Event.rmdirFrameDir ∈ (render env).2 ∧
        Event.rmdirBundleDir ∈ (render env).2) ∧
    (env.shouldOutputImageSequence = true →
      Event.rmdirFrameDir ∉ (render env).2 ∧
        Event.rmdirBundleDir ∉ (render env).2) ∧
    (∀ er, (render env).1 = RunResult.threw er →
      Event.rmdirFrameDir ∉ (render env).2 ∧
        Event.rmdirBundleDir ∉ (render env).2) := by
  obtain ⟨hA, hB, hC⟩ := renderCore_cleanup env
  by_cases hc : (env.shouldOutputImageSequence && env.userCodec.isSome) = true
  · refine ⟨fun _ h => ?_, fun _ => ⟨?_, ?_⟩, fun er h => ?_⟩
    · simp [render, hc] at h
    · simp [render, hc]
    · simp [render, hc]
    · simp [render, hc] at h
  · have htr : (render env).2 =
        codecWarnings env.resolvedCodec env.ffmpegFeatures ++ (renderCore env).2 := by
      simp [render, hc]
    have hres : (render env).1 = (renderCore env).1 := by
      simp [render, hc]
    refine ⟨fun himg h => ?_, fun himg => ?_, fun er h => ?_⟩
    · rw [hres] at h
      obtain ⟨h1, h2⟩ := hA himg h
      constructor
      · rw [htr, @mem_append_warn Event.rmdirFrameDir _ _ _ rfl]
        exact h1
      · rw [htr, @mem_append_warn Event.rmdirBundleDir _ _ _ rfl]
        exact h2
    · obtain ⟨h1, h2⟩ := hB himg
      constructor
      · rw [htr, @mem_append_warn Event.rmdirFrameDir _ _ _ rfl]
        exact h1
      · rw [htr, @mem_append_warn Event.rmdirBundleDir _ _ _ rfl]
        exact h2
    · rw [hres] at h
      obtain ⟨h1, h2⟩ := hC er h
      constructor
      · rw [htr, @mem_append_warn Event.rmdirFrameDir _ _ _ rfl]
        exact h1
      · rw [htr, @mem_append_warn Event.rmdirBundleDir _ _ _ rfl]
        exact h2

/-- Concrete environment whose packaging collaborator fails. -/
def bundleFailEnv : RenderEnv := { baseEnv with bundleOk := false }

theorem c2_witness :
    (Event.rmdirFrameDir ∈ (render baseEnv).2 ∧
      Event.rmdirBundleDir ∈ (render baseEnv).2) ∧
    (Event.rmdirFrameDir ∉ (render seqEnv).2 ∧
      Event.rmdirBundleDir ∉ (render seqEnv).2) ∧
    (Event.rmdirFrameDir ∉ (render bundleFailEnv).2 ∧
      Event.rmdirBundleDir ∉ (render bundleFailEnv).2) :=
  ⟨(c2_cleanup_only_on_video_success baseEnv).1 rfl (by decide),
    (c2_cleanup_only_on_video_success seqEnv).2.1 rfl,
    (c2_cleanup_only_on_video_success bundleFailEnv).2.2 RunError.bundleFailed
      (by decide)⟩

theorem crfOf_seq {env : RenderEnv} (h : env.shouldOutputImageSequence = true) :
    crfOf env = CrfVal.jsNull := by
  simp [crfOf, h]

theorem crfOf_video_none {env : RenderEnv}
    (h1 : env.shouldOutputImageSequence = false) (h2 : env.actualCrf = none) :
    crfOf env = CrfVal.notNum := by
  simp [crfOf, h1, h2]

theorem renderCore_crf (env : RenderEnv) :
    (env.shouldOutputImageSequence = true →
      Event.callValidateCrf ∉ (renderCore env).2) ∧
    (env.shouldOutputImageSequence = false → env.actualCrf = none →
      env.renderFramesOk = true →
      (∃ f, Event.callRenderFrames f ∈ (renderCore env).2) →
      (renderCore env).1 = RunResult.threw RunError.crfNotANumber ∧
        ∀ n f, Event.callStitch n f ∉ (renderCore env).2) := by
  refine renderCore_elim env (fun rt =>
    (env.shouldOutputImageSequence = true → Event.callValidateCrf ∉ rt.2) ∧
    (env.shouldOutputImageSequence = false → env.actualCrf = none →
      env.renderFramesOk = true →
      (∃ f, Event.callRenderFrames f ∈ rt.2) →
      rt.1 = RunResult.threw RunError.crfNotANumber ∧
        ∀ n f, Event.callStitch n f ∉ rt.2))
    ?_ ?_ ?_ ?_ ?_ ?_ ?_ ?_ ?_ ?_ ?_ ?_ ?_
  · intro _
    exact ⟨fun _ h => by simp at h, fun _ _ _ hex => by
      obtain ⟨f, hf⟩ := hex
      simp at hf⟩
  · intro _ _
    exact ⟨fun _ h => by simp at h, fun _ _ _ hex => by
      obtain ⟨f, hf⟩ := hex
      simp at hf⟩
  · intro _ _ _
    refine ⟨fun himg h => ?_, fun _ _ _ hex => ?_⟩
    · rcases mem_validationTrace.1 h with h2 | ⟨_, h2 | h2⟩ | ⟨hnull, _⟩
      · cases h2
      · cases h2
      · cases h2
      · rw [crfOf_seq himg] at hnull
        simp [CrfVal.isJsNull] at hnull
    · obtain ⟨f, hf⟩ := hex
      simp [mem_validationTrace] at hf
  · intro _ _ _ _
    refine ⟨fun himg h => ?_, fun _ _ _ hex => ?_⟩
    · rcases mem_validationTrace.1 h with h2 | ⟨_, h2 | h2⟩ | ⟨hnull, _⟩
      · cases h2
      · cases h2
      · cases h2
      · rw [crfOf_seq himg] at hnull
        simp [CrfVal.isJsNull] at hnull
    · obtain ⟨f, hf⟩ := hex
      simp [mem_validationTrace] at hf
  · intro _ _ _ _ _
    refine ⟨fun himg h => ?_, fun _ _ _ hex => ?_⟩
    · rcases mem_validationTrace.1 h with h2 | ⟨_, h2 | h2⟩ | ⟨hnull, _⟩
      · cases h2
      · cases h2
      · cases h2
      · rw [crfOf_seq himg] at hnull
        simp [CrfVal.isJsNull] at hnull
    · obtain ⟨f, hf⟩ := hex
      simp [mem_validationTrace] at hf
  · intro _ _ _ _ _ _
    refine ⟨fun himg h => ?_, fun _ _ _ hex => ?_⟩
    · rcases mem_bundleTrace.1 h with h2 | ⟨_, h2⟩ | h2
      · rcases mem_validationTrace.1 h2 with h3 | ⟨_, h3 | h3⟩ | ⟨hnull, _⟩
        · cases h3
        · cases h3
        · cases h3
        · rw [crfOf_seq himg] at hnull
          simp [CrfVal.isJsNull] at hnull
      · cases h2
      · cases h2
    · obtain ⟨f, hf⟩ := hex
      simp [mem_bundleTrace, mem_validationTrace] at hf
  · intro _ _ _ _ _ _ _
    refine ⟨fun himg h => ?_, fun _ _ _ hex => ?_⟩
    · rcases mem_compsTrace.1 h with h2 | h2
      · rcases mem_bundleTrace.1 h2 with h3 | ⟨_, h3⟩ | h3
        · rcases mem_validationTrace.1 h3 with h4 | ⟨_, h4 | h4⟩ | ⟨hnull, _⟩
          · cases h4
          · cases h4
          · cases h4
          · rw [crfOf_seq himg] at hnull
            simp [CrfVal.isJsNull] at hnull
        · cases h3
        · cases h3
      · cases h2
    · obtain ⟨f, hf⟩ := hex
      simp [mem_compsTrace, mem_bundleTrace, mem_validationTrace] at hf
  · intro _ _ _ _ _ _ _ _
    refine ⟨fun himg h => ?_, fun _ _ _ hex => ?_⟩
    · rcases mem_compsTrace.1 h with h2 | h2
      · rcases mem_bundleTrace.1 h2 with h3 | ⟨_, h3⟩ | h3
        · rcases mem_validationTrace.1 h3 with h4 | ⟨_, h4 | h4⟩ | ⟨hnull, _⟩
          · cases h4
          · cases h4
          · cases h4
          · rw [crfOf_seq himg] at hnull
            simp [CrfVal.isJsNull] at hnull
        · cases h3
        · cases h3
      · cases h2
    · obtain ⟨f, hf⟩ := hex
      simp [mem_compsTrace, mem_bundleTrace, mem_validationTrace] at hf
  · intro config _ _ _ _ _ _ _ _ g9
    refine ⟨fun himg h => ?_, fun _ _ hrf _ => ?_⟩
    · rcases mem_framesTrace.1 h with h2 | ⟨_, h2⟩ | h2
      · rcases mem_compsTrace.1 h2 with h3 | h3
        · rcases mem_bundleTrace.1 h3 with h4 | ⟨_, h4⟩ | h4
          · rcases mem_validationTrace.1 h4 with h5 | ⟨_, h5 | h5⟩ | ⟨hnull, _⟩
            · cases h5
            · cases h5
            · cases h5
            · rw [crfOf_seq himg] at hnull
              simp [CrfVal.isJsNull] at hnull
          · cases h4
          · cases h4
        · cases h3
      · cases h2
      · cases h2
    · rw [hrf] at g9
      exact absurd g9 (by decide)
  · intro config _ _ _ _ _ _ _ _ _ g10
    refine ⟨fun himg h => ?_, fun himg _ _ _ => ?_⟩
    · rcases mem_postFramesTrace.1 h with h2 | ⟨_, h2⟩
      · rcases mem_framesTrace.1 h2 with h3 | ⟨_, h3⟩ | h3
        · rcases mem_compsTrace.1 h3 with h4 | h4
          · rcases mem_bundleTrace.1 h4 with h5 | ⟨_, h5⟩ | h5
            · rcases mem_validationTrace.1 h5 with h6 | ⟨_, h6 | h6⟩ | ⟨hnull, _⟩
              · cases h6
              · cases h6
              · cases h6
              · rw [crfOf_seq himg] at hnull
                simp [CrfVal.isJsNull] at hnull
            · cases h5
            · cases h5
          · cases h4
        · cases h3
        · cases h3
      · cases h2
    · rw [himg] at g10
      exact absurd g10 (by decide)
  · intro config n0 _ _ _ _ _ _ _ _ _ g10 hcrf _
    refine ⟨fun himg => ?_, fun himg hnone _ _ => ?_⟩
    · rw [himg] at g10
      exact absurd g10 (by decide)
    · rw [crfOf_video_none himg hnone] at hcrf
      cases hcrf
  · intro config n0 _ _ _ _ _ _ _ _ _ g10 hcrf _
    refine ⟨fun himg => ?_, fun himg hnone _ _ => ?_⟩
    · rw [himg] at g10
      exact absurd g10 (by decide)
    · rw [crfOf_video_none himg hnone] at hcrf
      cases hcrf
  · intro config _ _ _ _ _ _ _ _ _ g10 _
    refine ⟨fun himg => ?_, fun _ _ _ _ => ?_⟩
    · rw [himg] at g10
      exact absurd g10 (by decide)
    · refine ⟨rfl, fun n f h => ?_⟩
      simp [mem_postFramesTrace, mem_framesTrace, mem_compsTrace, mem_bundleTrace,
        mem_validationTrace] at h

/-- C3: the crf binding is null exactly in image-sequence mode; in
image-sequence mode the CRF validator is never invoked; and in video mode a
non-number CRF value, once the run reaches the start of the stitching stage
(frame rendering completed), is a fatal type error with no default inferred
and no encoder invocation. -/
theorem c3_crf_present_iff_video (env : RenderEnv) :
    (crfOf env = CrfVal.jsNull ↔ env.shouldOutputImageSequence = true) ∧
    (env.shouldOutputImageSequence = true →
      Event.callValidateCrf ∉ (render env).2) ∧
    (env.shouldOutputImageSequence = false → env.actualCrf = none →
      env.renderFramesOk = true →
      (∃ f, Event.callRenderFrames f ∈ (render env).2) →
      (render env).1 = RunResult.threw RunError.crfNotANumber ∧
        ∀ n f, Event.callStitch n f ∉ (render env).2) := by
  obtain ⟨hA, hB⟩ := renderCore_crf env
  have hiff : crfOf env = CrfVal.jsNull ↔ env.shouldOutputImageSequence = true := by
    cases himg : env.shouldOutputImageSequence <;>
      rcases hcrf : env.actualCrf with _ | n <;> simp [crfOf, himg, hcrf]
  by_cases hc : (env.shouldOutputImageSequence && env.userCodec.isSome) = true
  · refine ⟨hiff, fun _ h => ?_, fun himg _ _ _ => ?_⟩
    · simp [render, hc] at h
    · rw [himg] at hc
      simp at hc
  · have htr : (render env).2 =
        codecWarnings env.resolvedCodec env.ffmpegFeatures ++ (renderCore env).2 := by
      simp [render, hc]
    have hres : (render env).1 = (renderCore env).1 := by
      simp [render, hc]
    refine ⟨hiff, fun himg h => ?_, fun himg hnone hrf hex => ?_⟩
    · rw [htr, @mem_append_warn Event.callValidateCrf _ _ _ rfl] at h
      exact hA himg h
    · obtain ⟨f, hf⟩ := hex
      rw [htr, @mem_append_warn (Event.callRenderFrames f) _ _ _ rfl] at hf
      obtain ⟨h1, h2⟩ := hB himg hnone hrf ⟨f, hf⟩
      refine ⟨by rw [hres]; exact h1, fun n f2 h3 => ?_⟩
      rw [htr, @mem_append_warn (Event.callStitch n f2) _ _ _ rfl] at h3
      exact h2 n f2 h3

/-- Concrete video-mode environment whose CRF accessor yields a non-number. -/
def notNumEnv : RenderEnv := { baseEnv with actualCrf := none }

theorem c3_witness :
    Event.callValidateCrf ∉ (render seqEnv).2 ∧
    (render notNumEnv).1 = RunResult.threw RunError.crfNotANumber ∧
    Event.callStitch 18 30 ∉ (render notNumEnv).2 :=
  ⟨(c3_crf_present_iff_video seqEnv).2.1 rfl,
    ((c3_crf_present_iff_video notNumEnv).2.2 rfl rfl rfl ⟨30, by decide⟩).1,
    ((c3_crf_present_iff_video notNumEnv).2.2 rfl rfl rfl ⟨30, by decide⟩).2 18 30⟩

theorem crfOf_video_some {env : RenderEnv} {n : Int}
    (h1 : env.shouldOutputImageSequence = false) (h2 : env.actualCrf = some n) :
    crfOf env = CrfVal.num n := by
  simp [crfOf, h1, h2]

theorem renderCore_invalid_crf (env : RenderEnv) (n : Int)
    (himg : env.shouldOutputImageSequence = false) (hcrf : env.actualCrf = some n)
    (hval : validateSelectedCrfAndCodecCombination n env.resolvedCodec = false)
    (hov : (env.outputFileExists && !env.overwrite) = false)
    (hff : env.validateFfmpegOk = true) :
    (renderCore env).1 = RunResult.threw RunError.invalidCrfForCodec ∧
      ∀ e ∈ (renderCore env).2,
        e.isCollaborator = false ∧ e.isDirCreation = false := by
  have hnum : crfOf env = CrfVal.num n := crfOf_video_some himg hcrf
  have hg3 : (!(crfOf env).isJsNull &&
      !validateCrfVal (crfOf env) env.resolvedCodec) = true := by
    rw [hnum]
    simp [CrfVal.isJsNull, validateCrfVal, hval]
  refine renderCore_elim env (fun rt =>
    rt.1 = RunResult.threw RunError.invalidCrfForCodec ∧
      ∀ e ∈ rt.2, e.isCollaborator = false ∧ e.isDirCreation = false)
    ?_ ?_ ?_ ?_ ?_ ?_ ?_ ?_ ?_ ?_ ?_ ?_ ?_
  · intro g1
    rw [hov] at g1
    exact absurd g1 (by decide)
  · intro _ g2
    rw [himg, hff] at g2
    exact absurd g2 (by decide)
  · intro _ _ _
    refine ⟨rfl, fun e he => ?_⟩
    rcases mem_validationTrace.1 he with rfl | ⟨_, rfl | rfl⟩ | ⟨_, rfl⟩ <;>
      exact ⟨rfl, rfl⟩
  · intro _ _ g3 _
    rw [hg3] at g3
    exact absurd g3 (by decide)
  · intro _ _ g3 _ _
    rw [hg3] at g3
    exact absurd g3 (by decide)
  · intro _ _ g3 _ _ _
    rw [hg3] at g3
    exact absurd g3 (by decide)
  · intro _ _ g3 _ _ _ _
    rw [hg3] at g3
    exact absurd g3 (by decide)
  · intro _ _ g3 _ _ _ _ _
    rw [hg3] at g3
    exact absurd g3 (by decide)
  · intro _ _ _ g3 _ _ _ _ _ _
    rw [hg3] at g3
    exact absurd g3 (by decide)
  · intro _ _ _ g3 _ _ _ _ _ _ _
    rw [hg3] at g3
    exact absurd g3 (by decide)
  · intro _ _ _ _ g3 _ _ _ _ _ _ _ _ _
    rw [hg3] at g3
    exact absurd g3 (by decide)
  · intro _ _ _ _ g3 _ _ _ _ _ _ _ _ _
    rw [hg3] at g3
    exact absurd g3 (by decide)
  · intro _ _ _ g3 _ _ _ _ _ _ _ _
    rw [hg3] at g3
    exact absurd g3 (by decide)

/-- C4: the CRF validator (modelled from the spec, its implementation being
outside the two source files) accepts exactly the documented range of each
codec, rejects the boundary-adjacent out-of-range values for h264, and an
out-of-range CRF in video mode aborts the run with the invalid-CRF error
before any collaborator is invoked and before any directory is created. -/
theorem c4_crf_validator_ranges (env : RenderEnv) (n : Int) :
    (validateSelectedCrfAndCodecCombination n Codec.h264 = true ↔
      0 ≤ n ∧ n ≤ 51) ∧
    (validateSelectedCrfAndCodecCombination n Codec.h265 = true ↔
      0 ≤ n ∧ n ≤ 51) ∧
    (validateSelectedCrfAndCodecCombination n Codec.vp8 = true ↔
      4 ≤ n ∧ n ≤ 63) ∧
    (validateSelectedCrfAndCodecCombination n Codec.vp9 = true ↔
      0 ≤ n ∧ n ≤ 63) ∧
    (validateSelectedCrfAndCodecCombination (-1) Codec.h264 = false ∧
      validateSelectedCrfAndCodecCombination 52 Codec.h264 = false ∧
      validateSelectedCrfAndCodecCombination 0 Codec.h264 = true ∧
      validateSelectedCrfAndCodecCombination 51 Codec.h264 = true) ∧
    (env.shouldOutputImageSequence = false → env.actualCrf = some n →
      validateSelectedCrfAndCodecCombination n env.resolvedCodec = false →
      (env.outputFileExists && !env.overwrite) = false →
      env.validateFfmpegOk = true →
      (render env).1 = RunResult.threw RunError.invalidCrfForCodec ∧
        ∀ e ∈ (render env).2,
          e.isCollaborator = false ∧ e.isDirCreation = false) := by
  refine ⟨?_, ?_, ?_, ?_, ⟨by decide, by decide, by decide, by decide⟩, ?_⟩
  · simp [validateSelectedCrfAndCodecCombination, crfRange]
  · simp [validateSelectedCrfAndCodecCombination, crfRange]
  · simp [validateSelectedCrfAndCodecCombination, crfRange]
  · simp [validateSelectedCrfAndCodecCombination, crfRange]
  · intro himg hcrf hval hov hff
    obtain ⟨h1, h2⟩ := renderCore_invalid_crf env n himg hcrf hval hov hff
    have hc : (env.shouldOutputImageSequence && env.userCodec.isSome) = false := by
      rw [himg]
      rfl
    have htr : (render env).2 =
        codecWarnings env.resolvedCodec env.ffmpegFeatures ++ (renderCore env).2 := by
      simp [render, hc]
    have hres : (render env).1 = (renderCore env).1 := by
      simp [render, hc]
    refine ⟨by rw [hres]; exact h1, fun e he => ?_⟩
    rw [htr] at he
    rcases List.mem_append.1 he with hw | hcore
    · obtain ⟨s, rfl⟩ := warn_event_shape (mem_codecWarnings_elim hw)
      exact ⟨rfl, rfl⟩
    · exact h2 e hcore

/-- Concrete video-mode environment with an out-of-range CRF for h264. -/
def badCrfEnv : RenderEnv := { baseEnv with actualCrf := some 52 }

theorem c4_witness :
    ((render badCrfEnv).1 = RunResult.threw RunError.invalidCrfForCodec ∧
      ∀ e ∈ (render badCrfEnv).2,
        e.isCollaborator = false ∧ e.isDirCreation = false) ∧
    validateSelectedCrfAndCodecCombination 52 Codec.h264 = false :=
  ⟨(c4_crf_validator_ranges badCrfEnv 52).2.2.2.2.2 rfl rfl (by decide) rfl rfl,
    (c4_crf_validator_ranges badCrfEnv 52).2.2.2.2.1.2.1⟩

theorem renderCore_features (env : RenderEnv) (fs : List String) :
    renderCore { env with ffmpegFeatures := fs } = renderCore env := rfl

theorem conflictGuard_features (env : RenderEnv) (fs : List String) :
    (({ env with ffmpegFeatures := fs } : RenderEnv).shouldOutputImageSequence &&
      ({ env with ffmpegFeatures := fs } : RenderEnv).userCodec.isSome) =
    (env.shouldOutputImageSequence && env.userCodec.isSome) := rfl

/-- C6: a missing optional encoder feature for vp8 or h265 is advisory only.
The terminal result and the warning-free effect trace do not depend on the
feature list at all (so the check never terminates or fails the run), and in
each lacking case the corresponding warning event is emitted while the
pipeline proceeds. -/
theorem c6_feature_warnings_nonfatal (env : RenderEnv) (fs : List String) :
    ((render { env with ffmpegFeatures := fs }).1 = (render env).1) ∧
    ((render { env with ffmpegFeatures := fs }).2.filter (fun e => !e.isWarn) =
      (render env).2.filter (fun e => !e.isWarn)) ∧
    ((env.shouldOutputImageSequence && env.userCodec.isSome) = false →
      (env.resolvedCodec = Codec.vp8 →
        ffmpegHasFeature env.ffmpegFeatures "enable-libvpx" = false →
        Event.warnCodecFeature "enable-libvpx" ∈ (render env).2) ∧
      (env.resolvedCodec = Codec.h265 →
        ffmpegHasFeature env.ffmpegFeatures "enable-gpl" = false →
        Event.warnCodecFeature "enable-gpl" ∈ (render env).2) ∧
      (env.resolvedCodec = Codec.h265 →
        ffmpegHasFeature env.ffmpegFeatures "enable-libx265" = false →
        Event.warnCodecFeature "enable-libx265" ∈ (render env).2)) := by
  by_cases hc : (env.shouldOutputImageSequence && env.userCodec.isSome) = true
  · refine ⟨?_, ?_, fun hnc => ?_⟩
    · simp [render, conflictGuard_features, hc]
    · simp [render, conflictGuard_features, hc]
    · rw [hc] at hnc
      exact absurd hnc (by decide)
  · have htr : (render env).2 =
        codecWarnings env.resolvedCodec env.ffmpegFeatures ++ (renderCore env).2 := by
      simp [render, hc]
    have htr2 : (render { env with ffmpegFeatures := fs }).2 =
        codecWarnings env.resolvedCodec fs ++ (renderCore env).2 := by
      simp [render, conflictGuard_features, hc, renderCore_features]
    refine ⟨?_, ?_, fun _ => ⟨fun hcodec hfeat => ?_, fun hcodec hfeat => ?_,
      fun hcodec hfeat => ?_⟩⟩
    · simp [render, conflictGuard_features, hc, renderCore_features]
    · rw [htr2, htr, filter_append_warn _ _ _ (fun s => rfl),
        filter_append_warn _ _ _ (fun s => rfl)]
    · rw [htr]
      refine List.mem_append.2 (Or.inl ?_)
      simp [codecWarnings, hcodec, hfeat]
    · rw [htr]
      refine List.mem_append.2 (Or.inl ?_)
      simp [codecWarnings, hcodec, hfeat]
    · rw [htr]
      refine List.mem_append.2 (Or.inl ?_)
      simp [codecWarnings, hcodec, hfeat]

/-- Concrete vp8 request on a host encoder build without optional features. -/
def vp8Env : RenderEnv :=
  { baseEnv with resolvedCodec := Codec.vp8, ffmpegFeatures := [] }

theorem c6_witness :
    (render { vp8Env with ffmpegFeatures := ["enable-libvpx"] }).1 =
      (render vp8Env).1 ∧
    Event.warnCodecFeature "enable-libvpx" ∈ (render vp8Env).2 :=
  ⟨(c6_feature_warnings_nonfatal vp8Env ["enable-libvpx"]).1,
    ((c6_feature_warnings_nonfatal vp8Env ["enable-libvpx"]).2.2 rfl).1 rfl rfl⟩

theorem crfOf_debug (env : RenderEnv) (d : Bool) :
    crfOf { env with debugEnv := d } = crfOf env := rfl

theorem validationTrace_debug (env : RenderEnv) (d : Bool) :
    validationTrace { env with debugEnv := d } = validationTrace env := rfl

theorem bundleTrace_debug (env : RenderEnv) (d : Bool) :
    bundleTrace { env with debugEnv := d } = bundleTrace env := rfl

theorem compsTrace_debug (env : RenderEnv) (d : Bool) :
    compsTrace { env with debugEnv := d } = compsTrace env := rfl

theorem framesTrace_debug (env : RenderEnv) (d : Bool) (f : Nat) :
    framesTrace { env with debugEnv := d } f = framesTrace env f := rfl

theorem postFramesTrace_debug (env : RenderEnv) (d : Bool) (f : Nat) :
    postFramesTrace { env with debugEnv := d } f =
      framesTrace env f ++ (if d then [Event.logPerf] else []) := rfl

theorem stitchTrace_debug (env : RenderEnv) (d : Bool) (n : Int) (f : Nat) :
    stitchTrace { env with debugEnv := d } n f =
      framesTrace env f ++ (if d then [Event.logPerf] else []) ++
        [Event.callStitch n f] := rfl

theorem filter_nolog_dbgite (b : Bool) :
    (if b then [Event.logPerf] else []).filter (fun e => !e.isLogPerf) = [] := by
  cases b <;> rfl

set_option maxHeartbeats 800000 in
theorem renderCore_debug (env : RenderEnv) (d : Bool) :
    ((renderCore { env with debugEnv := d }).1 = (renderCore env).1) ∧
    ((renderCore { env with debugEnv := d }).2.filter (fun e => !e.isLogPerf) =
      (renderCore env).2.filter (fun e => !e.isLogPerf)) := by
  refine renderCore_elim env (fun rt =>
    ((renderCore { env with debugEnv := d }).1 = rt.1) ∧
    ((renderCore { env with debugEnv := d }).2.filter (fun e => !e.isLogPerf) =
      rt.2.filter (fun e => !e.isLogPerf)))
    ?_ ?_ ?_ ?_ ?_ ?_ ?_ ?_ ?_ ?_ ?_ ?_ ?_
  · intro g1
    simp only [renderCore, crfOf_debug, validationTrace_debug, bundleTrace_debug,
      compsTrace_debug, framesTrace_debug, postFramesTrace_debug, stitchTrace_debug]
    simp only [g1, Bool.false_eq_true, Bool.not_false, Bool.not_true, Bool.true_and, Bool.false_and, Bool.and_true, Bool.and_false, if_false,
      eq_self_iff_true, if_true]
    exact ⟨trivial, trivial⟩
  · intro g1 g2
    simp only [renderCore, crfOf_debug, validationTrace_debug, bundleTrace_debug,
      compsTrace_debug, framesTrace_debug, postFramesTrace_debug, stitchTrace_debug]
    simp only [g1, g2, Bool.false_eq_true, Bool.not_false, Bool.not_true, Bool.true_and, Bool.false_and, Bool.and_true, Bool.and_false, if_false,
      eq_self_iff_true, if_true]
    exact ⟨trivial, trivial⟩
  · intro g1 g2 g3
    simp only [renderCore, crfOf_debug, validationTrace_debug, bundleTrace_debug,
      compsTrace_debug, framesTrace_debug, postFramesTrace_debug, stitchTrace_debug]
    simp only [g1, g2, g3, Bool.false_eq_true, Bool.not_false, Bool.not_true,
      if_false, eq_self_iff_true, if_true]
    exact ⟨trivial, trivial⟩
  · intro g1 g2 g3 g4
    simp only [renderCore, crfOf_debug, validationTrace_debug, bundleTrace_debug,
      compsTrace_debug, framesTrace_debug, postFramesTrace_debug, stitchTrace_debug]
    simp only [g1, g2, g3, g4, Bool.false_eq_true, Bool.not_false, Bool.not_true,
      if_false, eq_self_iff_true, if_true]
    exact ⟨trivial, trivial⟩
  · intro g1 g2 g3 g4 g5
    simp only [renderCore, crfOf_debug, validationTrace_debug, bundleTrace_debug,
      compsTrace_debug, framesTrace_debug, postFramesTrace_debug, stitchTrace_debug]
    simp only [g1, g2, g3, g4, g5, Bool.false_eq_true, Bool.not_false, Bool.not_true,
      if_false, eq_self_iff_true, if_true]
    exact ⟨trivial, trivial⟩
  · intro g1 g2 g3 g4 g5 g6
    simp only [renderCore, crfOf_debug, validationTrace_debug, bundleTrace_debug,
      compsTrace_debug, framesTrace_debug, postFramesTrace_debug, stitchTrace_debug]
    simp only [g1, g2, g3, g4, g5, g6, Bool.false_eq_true, Bool.not_false,
      Bool.not_true, if_false, eq_self_iff_true, if_true]
    exact ⟨trivial, trivial⟩
  · intro g1 g2 g3 g4 g5 g6 g7
    simp only [renderCore, crfOf_debug, validationTrace_debug, bundleTrace_debug,
      compsTrace_debug, framesTrace_debug, postFramesTrace_debug, stitchTrace_debug]
    simp only [g1, g2, g3, g4, g5, g6, g7, Bool.false_eq_true, Bool.not_false,
      Bool.not_true, if_false, eq_self_iff_true, if_true]
    exact ⟨trivial, trivial⟩
  · intro g1 g2 g3 g4 g5 g6 g7 hfind
    simp only [renderCore, crfOf_debug, validationTrace_debug, bundleTrace_debug,
      compsTrace_debug, framesTrace_debug, postFramesTrace_debug, stitchTrace_debug]
    simp only [g1, g2, g3, g4, g5, g6, g7, hfind, Bool.false_eq_true, Bool.not_false,
      Bool.not_true, if_false, eq_self_iff_true, if_true]
    exact ⟨trivial, trivial⟩
  · intro config g1 g2 g3 g4 g5 g6 g7 hfind g9
    simp only [renderCore, crfOf_debug, validationTrace_debug, bundleTrace_debug,
      compsTrace_debug, framesTrace_debug, postFramesTrace_debug, stitchTrace_debug]
    simp only [g1, g2, g3, g4, g5, g6, g7, hfind, g9, Bool.false_eq_true,
      Bool.not_false, Bool.not_true, Bool.true_and, Bool.false_and, Bool.and_true, Bool.and_false, if_false, eq_self_iff_true, if_true]
    exact ⟨trivial, trivial⟩
  · intro config g1 g2 g3 g4 g5 g6 g7 hfind g9 g10
    simp only [renderCore, crfOf_debug, validationTrace_debug, bundleTrace_debug,
      compsTrace_debug, framesTrace_debug, postFramesTrace_debug, stitchTrace_debug]
    simp only [g1, g2, g3, g4, g5, g6, g7, hfind, g9, g10, Bool.false_eq_true,
      Bool.not_false, Bool.not_true, Bool.true_and, Bool.false_and, Bool.and_true, Bool.and_false, if_false, eq_self_iff_true, if_true]
    refine ⟨trivial, ?_⟩
    simp [postFramesTrace, List.filter_append, filter_nolog_dbgite]
  · intro config n g1 g2 g3 g4 g5 g6 g7 hfind g9 g10 hcrf g11
    have hv : env.validateFfmpegOk = true := by
      rw [g10] at g2
      simpa using g2
    have hval : validateSelectedCrfAndCodecCombination n env.resolvedCodec = true := by
      rw [hcrf] at g3
      simpa [CrfVal.isJsNull, validateCrfVal] using g3
    simp only [renderCore, crfOf_debug, validationTrace_debug, bundleTrace_debug,
      compsTrace_debug, framesTrace_debug, postFramesTrace_debug, stitchTrace_debug]
    simp only [g1, g2, g3, g4, g5, g6, g7, hfind, g9, g10, hcrf, g11, hv, hval,
      validateCrfVal, CrfVal.isJsNull,
      Bool.false_eq_true, Bool.not_false, Bool.not_true, Bool.true_and, Bool.false_and, Bool.and_true, Bool.and_false, if_false, eq_self_iff_true,
      if_true]
    refine ⟨trivial, ?_⟩
    simp [stitchTrace, postFramesTrace, List.filter_append, filter_nolog_dbgite,
      Event.isLogPerf]
    cases d <;> cases env.debugEnv <;> rfl
  · intro config n g1 g2 g3 g4 g5 g6 g7 hfind g9 g10 hcrf g11
    have hv : env.validateFfmpegOk = true := by
      rw [g10] at g2
      simpa using g2
    have hval : validateSelectedCrfAndCodecCombination n env.resolvedCodec = true := by
      rw [hcrf] at g3
      simpa [CrfVal.isJsNull, validateCrfVal] using g3
    simp only [renderCore, crfOf_debug, validationTrace_debug, bundleTrace_debug,
      compsTrace_debug, framesTrace_debug, postFramesTrace_debug, stitchTrace_debug]
    simp only [g1, g2, g3, g4, g5, g6, g7, hfind, g9, g10, hcrf, g11, hv, hval,
      validateCrfVal, CrfVal.isJsNull,
      Bool.false_eq_true, Bool.not_false, Bool.not_true, Bool.true_and, Bool.false_and, Bool.and_true, Bool.and_false, if_false, eq_self_iff_true,
      if_true]
    refine ⟨trivial, ?_⟩
    simp [stitchTrace, postFramesTrace, List.filter_append, filter_nolog_dbgite,
      Event.isLogPerf]
    cases d <;> cases env.debugEnv <;> rfl
  · intro config g1 g2 g3 g4 g5 g6 g7 hfind g9 g10 hnotnum
    have hv : env.validateFfmpegOk = true := by
      rw [g10] at g2
      simpa using g2
    rcases hcv : crfOf env with n | _ | _
    · exact absurd hcv (hnotnum n)
    · simp only [renderCore, crfOf_debug, validationTrace_debug, bundleTrace_debug,
        compsTrace_debug, framesTrace_debug, postFramesTrace_debug,
        stitchTrace_debug]
      simp only [g1, g2, g3, g4, g5, g6, g7, hfind, g9, g10, hcv, hv,
        validateCrfVal, CrfVal.isJsNull,
        Bool.false_eq_true, Bool.not_false, Bool.not_true, Bool.true_and, Bool.false_and, Bool.and_true, Bool.and_false, if_false,
        eq_self_iff_true, if_true]
      refine ⟨trivial, ?_⟩
      simp [postFramesTrace, List.filter_append, filter_nolog_dbgite]
    · simp only [renderCore, crfOf_debug, validationTrace_debug, bundleTrace_debug,
        compsTrace_debug, framesTrace_debug, postFramesTrace_debug,
        stitchTrace_debug]
      simp only [g1, g2, g3, g4, g5, g6, g7, hfind, g9, g10, hcv, hv,
        validateCrfVal, CrfVal.isJsNull,
        Bool.false_eq_true, Bool.not_false, Bool.not_true, Bool.true_and, Bool.false_and, Bool.and_true, Bool.and_false, if_false,
        eq_self_iff_true, if_true]
      refine ⟨trivial, ?_⟩
      simp [postFramesTrace, List.filter_append, filter_nolog_dbgite]

theorem conflictGuard_debug (env : RenderEnv) (d : Bool) :
    (({ env with debugEnv := d } : RenderEnv).shouldOutputImageSequence &&
      ({ env with debugEnv := d } : RenderEnv).userCodec.isSome) =
    (env.shouldOutputImageSequence && env.userCodec.isSome) := rfl

/-- C8: two runs differing only in the debug environment flag behave
identically apart from the emission of the internal performance counters:
the terminal result is equal and the effect traces agree once the logPerf
event is filtered out (same stages, same order, same outputs). -/
theorem c8_debug_flag_only_logPerf (env : RenderEnv) (d : Bool) :
    ((render { env with debugEnv := d }).1 = (render env).1) ∧
    ((render { env with debugEnv := d }).2.filter (fun e => !e.isLogPerf) =
      (render env).2.filter (fun e => !e.isLogPerf)) := by
  obtain ⟨h1, h2⟩ := renderCore_debug env d
  by_cases hc : (env.shouldOutputImageSequence && env.userCodec.isSome) = true
  · constructor <;> simp [render, conflictGuard_debug, hc]
  · have ht1 : (render { env with debugEnv := d }).1 =
        (renderCore { env with debugEnv := d }).1 := by
      simp [render, conflictGuard_debug, hc]
    have ht2 : (render env).1 = (renderCore env).1 := by
      simp [render, hc]
    have htr1 : (render { env with debugEnv := d }).2 =
        codecWarnings env.resolvedCodec env.ffmpegFeatures ++
          (renderCore { env with debugEnv := d }).2 := by
      simp [render, conflictGuard_debug, hc]
    have htr2 : (render env).2 =
        codecWarnings env.resolvedCodec env.ffmpegFeatures ++ (renderCore env).2 := by
      simp [render, hc]
    constructor
    · rw [ht1, ht2, h1]
    · rw [htr1, htr2, List.filter_append, List.filter_append, h2]

theorem c8_witness :
    (render { baseEnv with debugEnv := true }).1 = (render baseEnv).1 ∧
    (render { baseEnv with debugEnv := true }).2.filter (fun e => !e.isLogPerf) =
      (render baseEnv).2.filter (fun e => !e.isLogPerf) :=
  c8_debug_flag_only_logPerf baseEnv true

theorem bundleTrace_no_mkdtemp {env : RenderEnv} :
    ∀ e ∈ bundleTrace env, Event.isMkdtemp e = false := by
  intro e he
  rcases mem_bundleTrace.1 he with h | ⟨_, rfl⟩ | rfl
  · rcases mem_validationTrace.1 h with rfl | ⟨_, rfl | rfl⟩ | ⟨_, rfl⟩ <;> rfl
  · rfl
  · rfl

theorem framesTrace_decomp (env : RenderEnv) (d : Nat) (r : List Event) :
    framesTrace env d ++ r =
      bundleTrace env ++ Event.callGetCompositions ::
        ((if env.shouldOutputImageSequence then [] else [Event.mkdtempFrameDir]) ++
          Event.callRenderFrames d :: r) := by
  unfold framesTrace compsTrace
  simp [List.append_assoc]

theorem precededBy_gc_mkdtemp (env : RenderEnv) (d : Nat) (r : List Event) :
    precededBy Event.isGetCompositions Event.isMkdtemp
      (framesTrace env d ++ r) = true := by
  rw [framesTrace_decomp]
  exact precededBy_intro bundleTrace_no_mkdtemp rfl rfl

theorem renderCore_mkdtemp (env : RenderEnv) :
    (Event.mkdtempFrameDir ∈ (renderCore env).2 →
      env.shouldOutputImageSequence = false ∧
      (env.comps.find? (fun c => c.id == env.compositionId)).isSome = true ∧
      precededBy Event.isGetCompositions Event.isMkdtemp (renderCore env).2 = true) ∧
    ((renderCore env).1 =
        RunResult.threw (RunError.compositionNotFound env.compositionId) →
      Event.callBundle ∈ (renderCore env).2 ∧
      Event.mkdtempFrameDir ∉ (renderCore env).2) := by
  refine renderCore_elim env (fun rt =>
    (Event.mkdtempFrameDir ∈ rt.2 →
      env.shouldOutputImageSequence = false ∧
      (env.comps.find? (fun c => c.id == env.compositionId)).isSome = true ∧
      precededBy Event.isGetCompositions Event.isMkdtemp rt.2 = true) ∧
    (rt.1 = RunResult.threw (RunError.compositionNotFound env.compositionId) →
      Event.callBundle ∈ rt.2 ∧ Event.mkdtempFrameDir ∉ rt.2))
    ?_ ?_ ?_ ?_ ?_ ?_ ?_ ?_ ?_ ?_ ?_ ?_ ?_
  · intro _
    exact ⟨fun h => by simp at h, fun h => by simp at h⟩
  · intro _ _
    exact ⟨fun h => by simp at h, fun h => by simp at h⟩
  · intro _ _ _
    exact ⟨fun h => by simp [mem_validationTrace] at h, fun h => by simp at h⟩
  · intro _ _ _ _
    exact ⟨fun h => by simp [mem_validationTrace] at h, fun h => by simp at h⟩
  · intro _ _ _ _ _
    exact ⟨fun h => by simp [mem_validationTrace] at h, fun h => by simp at h⟩
  · intro _ _ _ _ _ _
    exact ⟨fun h => by simp [mem_bundleTrace, mem_validationTrace] at h,
      fun h => by simp at h⟩
  · intro _ _ _ _ _ _ _
    exact ⟨fun h => by
        simp [mem_compsTrace, mem_bundleTrace, mem_validationTrace] at h,
      fun h => by simp at h⟩
  · intro _ _ _ _ _ _ _ hfind
    refine ⟨fun h => ?_, fun _ => ⟨?_, ?_⟩⟩
    · simp [mem_compsTrace, mem_bundleTrace, mem_validationTrace] at h
    · exact mem_compsTrace.2 (Or.inl (mem_bundleTrace.2 (Or.inr (Or.inr rfl))))
    · intro h
      simp [mem_compsTrace, mem_bundleTrace, mem_validationTrace] at h
  · intro config _ _ _ _ _ _ _ hfind _
    refine ⟨fun h => ?_, fun h => by simp at h⟩
    rcases mem_framesTrace.1 h with h2 | ⟨himg, _⟩ | h2
    · simp [mem_compsTrace, mem_bundleTrace, mem_validationTrace] at h2
    · refine ⟨himg, by rw [hfind]; rfl, ?_⟩
      have := precededBy_gc_mkdtemp env config.durationInFrames []
      simpa using this
    · cases h2
  · intro config _ _ _ _ _ _ _ hfind _ _
    refine ⟨fun h => ?_, fun h => by simp at h⟩
    rcases mem_postFramesTrace.1 h with h2 | ⟨_, h2⟩
    · rcases mem_framesTrace.1 h2 with h3 | ⟨himg, _⟩ | h3
      · simp [mem_compsTrace, mem_bundleTrace, mem_validationTrace] at h3
      · refine ⟨himg, by rw [hfind]; rfl, ?_⟩
        rw [postFramesTrace]
        exact precededBy_gc_mkdtemp env config.durationInFrames _
      · cases h3
    · cases h2
  · intro config n _ _ _ _ _ _ _ hfind _ g10 _ _
    refine ⟨fun h => ?_, fun h => by simp at h⟩
    refine ⟨g10, by rw [hfind]; rfl, ?_⟩
    rw [stitchTrace, postFramesTrace, List.append_assoc]
    exact precededBy_gc_mkdtemp env config.durationInFrames _
  · intro config n _ _ _ _ _ _ _ hfind _ g10 _ _
    refine ⟨fun h => ?_, fun h => by simp at h⟩
    refine ⟨g10, by rw [hfind]; rfl, ?_⟩
    rw [stitchTrace, postFramesTrace, List.append_assoc, List.append_assoc]
    exact precededBy_gc_mkdtemp env config.durationInFrames _
  · intro config _ _ _ _ _ _ _ hfind _ g10 _
    refine ⟨fun h => ?_, fun h => by simp at h⟩
    refine ⟨g10, by rw [hfind]; rfl, ?_⟩
    rw [postFramesTrace]
    exact precededBy_gc_mkdtemp env config.durationInFrames _

/-- C10: the temporary frame directory is only ever created in video mode
after the composition was successfully resolved (the getCompositions call
precedes it in the trace and the lookup succeeded), and a run failing with
composition-not-found has invoked the packaging collaborator but never
created a frame directory. -/
theorem c10_mkdtemp_after_resolution (env : RenderEnv) :
    (Event.mkdtempFrameDir ∈ (render env).2 →
      env.shouldOutputImageSequence = false ∧
      (env.comps.find? (fun c => c.id == env.compositionId)).isSome = true ∧
      precededBy Event.isGetCompositions Event.isMkdtemp (render env).2 = true) ∧
    ((render env).1 =
        RunResult.threw (RunError.compositionNotFound env.compositionId) →
      Event.callBundle ∈ (render env).2 ∧
      Event.mkdtempFrameDir ∉ (render env).2) := by
  obtain ⟨hA, hB⟩ := renderCore_mkdtemp env
  by_cases hc : (env.shouldOutputImageSequence && env.userCodec.isSome) = true
  · refine ⟨fun h => ?_, fun h => ?_⟩
    · simp [render, hc] at h
    · simp [render, hc] at h
  · have htr : (render env).2 =
        codecWarnings env.resolvedCodec env.ffmpegFeatures ++ (renderCore env).2 := by
      simp [render, hc]
    have hres : (render env).1 = (renderCore env).1 := by
      simp [render, hc]
    refine ⟨fun h => ?_, fun h => ?_⟩
    · rw [htr, @mem_append_warn Event.mkdtempFrameDir _ _ _ rfl] at h
      obtain ⟨h1, h2, h3⟩ := hA h
      refine ⟨h1, h2, ?_⟩
      rw [htr, precededBy_append_warn _ _ (fun s => rfl) (fun s => rfl)]
      exact h3
    · rw [hres] at h
      obtain ⟨h1, h2⟩ := hB h
      constructor
      · rw [htr, @mem_append_warn Event.callBundle _ _ _ rfl]
        exact h1
      · rw [htr, @mem_append_warn Event.mkdtempFrameDir _ _ _ rfl]
        exact h2

/-- Concrete environment whose composition id is not in the resolved list. -/
def notFoundEnv : RenderEnv := { baseEnv with compositionId := "missing" }

theorem c10_witness :
    (Event.mkdtempFrameDir ∈ (render baseEnv).2 ∧
      precededBy Event.isGetCompositions Event.isMkdtemp (render baseEnv).2 = true) ∧
    (Event.callBundle ∈ (render notFoundEnv).2 ∧
      Event.mkdtempFrameDir ∉ (render notFoundEnv).2) :=
  ⟨⟨by decide, ((c10_mkdtemp_after_resolution baseEnv).1 (by decide)).2.2⟩,
    (c10_mkdtemp_after_resolution notFoundEnv).2 (by decide)⟩

theorem renderCore_vff (env : RenderEnv) :
    (env.shouldOutputImageSequence = true →
      Event.callValidateFfmpeg ∉ (renderCore env).2) ∧
    (env.shouldOutputImageSequence = false →
      (env.outputFileExists && !env.overwrite) = false →
      ((renderCore env).2.filter Event.isValidateFfmpeg).length = 1 ∧
      precededBy Event.isCheckOverwrite Event.isValidateFfmpeg
        (renderCore env).2 = true ∧
      precededBy Event.isValidateFfmpeg Event.isGetActualCrf
        (renderCore env).2 = true) := by
  refine renderCore_elim env (fun rt =>
    (env.shouldOutputImageSequence = true → Event.callValidateFfmpeg ∉ rt.2) ∧
    (env.shouldOutputImageSequence = false →
      (env.outputFileExists && !env.overwrite) = false →
      (rt.2.filter Event.isValidateFfmpeg).length = 1 ∧
      precededBy Event.isCheckOverwrite Event.isValidateFfmpeg rt.2 = true ∧
      precededBy Event.isValidateFfmpeg Event.isGetActualCrf rt.2 = true))
    ?_ ?_ ?_ ?_ ?_ ?_ ?_ ?_ ?_ ?_ ?_ ?_ ?_
  · intro g1
    refine ⟨fun _ h => by simp at h, fun _ hov => ?_⟩
    rw [hov] at g1
    exact absurd g1 (by decide)
  · intro _ g2
    refine ⟨fun himg => ?_, fun _ _ => ⟨rfl, rfl, rfl⟩⟩
    rw [himg] at g2
    simp at g2
  · intro _ _ _
    refine ⟨fun himg h => ?_, fun himg _ => ?_⟩
    · rcases mem_validationTrace.1 h with h2 | ⟨hf, _⟩ | ⟨_, h2⟩
      · cases h2
      · rw [himg] at hf
        cases hf
      · cases h2
    · cases hnull : (crfOf env).isJsNull <;>
        simp [validationTrace, himg, hnull, precededBy, Event.isValidateFfmpeg,
          Event.isCheckOverwrite, Event.isGetActualCrf]
  · intro _ _ _ _
    refine ⟨fun himg h => ?_, fun himg _ => ?_⟩
    · rcases mem_validationTrace.1 h with h2 | ⟨hf, _⟩ | ⟨_, h2⟩
      · cases h2
      · rw [himg] at hf
        cases hf
      · cases h2
    · cases hnull : (crfOf env).isJsNull <;>
        simp [validationTrace, himg, hnull, precededBy, Event.isValidateFfmpeg,
          Event.isCheckOverwrite, Event.isGetActualCrf]
  · intro _ _ _ _ _
    refine ⟨fun himg h => ?_, fun himg _ => ?_⟩
    · rcases mem_validationTrace.1 h with h2 | ⟨hf, _⟩ | ⟨_, h2⟩
      · cases h2
      · rw [himg] at hf
        cases hf
      · cases h2
    · cases hnull : (crfOf env).isJsNull <;>
        simp [validationTrace, himg, hnull, precededBy, Event.isValidateFfmpeg,
          Event.isCheckOverwrite, Event.isGetActualCrf]
  · intro _ _ _ _ _ _
    refine ⟨fun himg h => ?_, fun himg _ => ?_⟩
    · rcases mem_bundleTrace.1 h with h2 | ⟨_, h2⟩ | h2
      · rcases mem_validationTrace.1 h2 with h3 | ⟨hf, _⟩ | ⟨_, h3⟩
        · cases h3
        · rw [himg] at hf
          cases hf
        · cases h3
      · cases h2
      · cases h2
    · cases hnull : (crfOf env).isJsNull <;>
        simp [bundleTrace, validationTrace, himg, hnull, precededBy,
          Event.isValidateFfmpeg, Event.isCheckOverwrite, Event.isGetActualCrf,
          List.filter_append]
  · intro _ _ _ _ _ _ _
    refine ⟨fun himg h => ?_, fun himg _ => ?_⟩
    · simp [mem_compsTrace, mem_bundleTrace, mem_validationTrace, himg] at h
    · cases hnull : (crfOf env).isJsNull <;>
        simp [compsTrace, bundleTrace, validationTrace, himg, hnull, precededBy,
          Event.isValidateFfmpeg, Event.isCheckOverwrite, Event.isGetActualCrf,
          List.filter_append]
  · intro _ _ _ _ _ _ _ _
    refine ⟨fun himg h => ?_, fun himg _ => ?_⟩
    · simp [mem_compsTrace, mem_bundleTrace, mem_validationTrace, himg] at h
    · cases hnull : (crfOf env).isJsNull <;>
        simp [compsTrace, bundleTrace, validationTrace, himg, hnull, precededBy,
          Event.isValidateFfmpeg, Event.isCheckOverwrite, Event.isGetActualCrf,
          List.filter_append]
  · intro config _ _ _ _ _ _ _ _ _
    refine ⟨fun himg h => ?_, fun himg _ => ?_⟩
    · simp [mem_framesTrace, mem_compsTrace, mem_bundleTrace, mem_validationTrace,
        himg] at h
    · cases hnull : (crfOf env).isJsNull <;>
        simp [framesTrace, compsTrace, bundleTrace, validationTrace, himg, hnull,
          precededBy, Event.isValidateFfmpeg, Event.isCheckOverwrite,
          Event.isGetActualCrf, List.filter_append]
  · intro config _ _ _ _ _ _ _ _ _ g10
    refine ⟨fun himg h => ?_, fun himg _ => ?_⟩
    · simp [mem_postFramesTrace, mem_framesTrace, mem_compsTrace, mem_bundleTrace,
        mem_validationTrace, himg] at h
    · rw [himg] at g10
      exact absurd g10 (by decide)
  · intro config n _ _ _ _ _ _ _ _ _ g10 _ _
    refine ⟨fun himg => ?_, fun himg _ => ?_⟩
    · rw [himg] at g10
      exact absurd g10 (by decide)
    · cases hnull : (crfOf env).isJsNull <;> cases hdbg : env.debugEnv <;>
        simp [stitchTrace, postFramesTrace, framesTrace, compsTrace, bundleTrace,
          validationTrace, himg, hnull, hdbg, precededBy, Event.isValidateFfmpeg,
          Event.isCheckOverwrite, Event.isGetActualCrf, List.filter_append]
  · intro config n _ _ _ _ _ _ _ _ _ g10 _ _
    refine ⟨fun himg => ?_, fun himg _ => ?_⟩
    · rw [himg] at g10
      exact absurd g10 (by decide)
    · cases hnull : (crfOf env).isJsNull <;> cases hdbg : env.debugEnv <;>
        simp [stitchTrace, postFramesTrace, framesTrace, compsTrace, bundleTrace,
          validationTrace, himg, hnull, hdbg, precededBy, Event.isValidateFfmpeg,
          Event.isCheckOverwrite, Event.isGetActualCrf, List.filter_append]
  · intro config _ _ _ _ _ _ _ _ _ g10 _
    refine ⟨fun himg => ?_, fun himg _ => ?_⟩
    · rw [himg] at g10
      exact absurd g10 (by decide)
    · cases hnull : (crfOf env).isJsNull <;> cases hdbg : env.debugEnv <;>
        simp [postFramesTrace, framesTrace, compsTrace, bundleTrace,
          validationTrace, himg, hnull, hdbg, precededBy, Event.isValidateFfmpeg,
          Event.isCheckOverwrite, Event.isGetActualCrf, List.filter_append]

theorem c9_counterexample :
    existsEnv.shouldOutputImageSequence = false ∧
    ((render existsEnv).2.filter Event.isValidateFfmpeg).length ≠ 1 := by
  decide

/-- C9 (amended): the encoder-availability check is never invoked in
image-sequence mode, and in every video-mode run that passes the overwrite
precondition it is invoked exactly once, after the overwrite probe and
before the CRF accessor is consulted.  (A video-mode run rejected by the
overwrite precondition exits before the check, so the original claim fails
there.) -/
theorem c9_validateFfmpeg_video_only (env : RenderEnv) :
    (env.shouldOutputImageSequence = true →
      Event.callValidateFfmpeg ∉ (render env).2) ∧
    (env.shouldOutputImageSequence = false →
      (env.outputFileExists && !env.overwrite) = false →
      ((render env).2.filter Event.isValidateFfmpeg).length = 1 ∧
      precededBy Event.isCheckOverwrite Event.isValidateFfmpeg
        (render env).2 = true ∧
      precededBy Event.isValidateFfmpeg Event.isGetActualCrf
        (render env).2 = true) := by
  obtain ⟨hA, hB⟩ := renderCore_vff env
  by_cases hc : (env.shouldOutputImageSequence && env.userCodec.isSome) = true
  · refine ⟨fun _ h => ?_, fun himg _ => ?_⟩
    · simp [render, hc] at h
    · rw [himg] at hc
      simp at hc
  · have htr : (render env).2 =
        codecWarnings env.resolvedCodec env.ffmpegFeatures ++ (renderCore env).2 := by
      simp [render, hc]
    refine ⟨fun himg h => ?_, fun himg hov => ?_⟩
    · rw [htr, @mem_append_warn Event.callValidateFfmpeg _ _ _ rfl] at h
      exact hA himg h
    · obtain ⟨h1, h2, h3⟩ := hB himg hov
      refine ⟨?_, ?_, ?_⟩
      · rw [htr, filter_append_warn _ _ _ (fun s => rfl)]
        exact h1
      · rw [htr, precededBy_append_warn _ _ (fun s => rfl) (fun s => rfl)]
        exact h2
      · rw [htr, precededBy_append_warn _ _ (fun s => rfl) (fun s => rfl)]
        exact h3

theorem c9_witness :
    Event.callValidateFfmpeg ∉ (render seqEnv).2 ∧
    (((render baseEnv).2.filter Event.isValidateFfmpeg).length = 1 ∧
      precededBy Event.isCheckOverwrite Event.isValidateFfmpeg
        (render baseEnv).2 = true ∧
      precededBy Event.isValidateFfmpeg Event.isGetActualCrf
        (render baseEnv).2 = true) :=
  ⟨(c9_validateFfmpeg_video_only seqEnv).1 rfl,
    (c9_validateFfmpeg_video_only baseEnv).2 rfl rfl⟩

end Remotion
